import Mathlib

/-!
# Frontend bootstrap: `src/frontend/main.go`

A shallow embedding of the frontend's entry point: its constants, the currency
whitelist, the two `must*` helpers, the server aggregate, the route table that
`main` registers on the gorilla/mux router, the middleware composition and the
sequence of external calls `main` performs.

Conventions of the embedding.

* Go strings are Lean `String`s (sequences of Unicode scalar values; a Go string
  holding bytes that are not valid UTF-8 has no counterpart here).
* A Go `error` is its message; `nil` is `none`.
* Everything `main` cannot decide by itself (the process environment, the outcome
  of each `grpc.DialContext`, of `newrelic.NewApplication` and of
  `http.ListenAndServe`) is supplied by a `World`.
* A call that can panic returns the memory it leaves behind together with the
  panic value, so that what was written before the panic stays observable.
-/

namespace Frontend

/-! ## Constants (`main.go` 42-50) -/

def port : String := "8080"
def defaultCurrency : String := "USD"
def cookieMaxAge : Nat := 60 * 60 * 48

def cookiePrefix : String := "shop_"
def cookieSessionID : String := cookiePrefix ++ "session-id"
def cookieCurrency : String := cookiePrefix ++ "currency"

/-! ## The currency whitelist (`main.go` 52-60) -/

/-- A Go `map[string]bool` literal, as the list of its entries. -/
abbrev GoMap := List (String × Bool)

/-- Go's `m[k]` on a `map[string]bool`: the stored value, or the zero value `false`
when the key is absent. -/
def GoMap.index (m : GoMap) (k : String) : Bool :=
  match m.lookup k with
  | some v => v
  | none => false

def whitelistedCurrencies : GoMap :=
  [("USD", true),
   ("EUR", true),
   ("CAD", true),
   ("JPY", true),
   ("GBP", true),
   ("TRY", true)]

/-! ## Formatting: what `fmt.Sprintf` and `errors.Wrapf` produce -/

/-- Digits used by `strconv` for hexadecimal escapes. -/
def lowerhex : List Char := "0123456789abcdef".data

def hexDigit (n : Nat) : Char := lowerhex.getD (n % 16) '0'

/-- Go's `strconv.IsPrint`. Latin-1 is decided inline as the library does; above
U+00FF the library consults Unicode tables, given here by `table`. -/
def isPrint (table : Char → Bool) (r : Char) : Bool :=
  if r.toNat ≤ 0xFF then
    if 0x20 ≤ r.toNat ∧ r.toNat ≤ 0x7E then true
    else if 0xA1 ≤ r.toNat ∧ r.toNat ≤ 0xFF then r.toNat ≠ 0xAD
    else false
  else table r

/-- Go's `strconv.appendEscapedRune` with quote `"` and neither `ASCIIonly` nor
`graphicOnly`: the characters one rune of the operand of `%q` turns into. -/
def appendEscapedRune (table : Char → Bool) (r : Char) : List Char :=
  if r = '"' ∨ r = '\\' then ['\\', r]
  else if isPrint table r then [r]
  else if r.toNat = 7 then ['\\', 'a']
  else if r.toNat = 8 then ['\\', 'b']
  else if r.toNat = 12 then ['\\', 'f']
  else if r.toNat = 10 then ['\\', 'n']
  else if r.toNat = 13 then ['\\', 'r']
  else if r.toNat = 9 then ['\\', 't']
  else if r.toNat = 11 then ['\\', 'v']
  else if r.toNat < 0x20 ∨ r.toNat = 0x7F then
    ['\\', 'x', hexDigit (r.toNat / 16), hexDigit r.toNat]
  else if r.toNat < 0x10000 then
    ['\\', 'u'] ++ (List.map (fun s => hexDigit (r.toNat / 16 ^ s)) [3, 2, 1, 0])
  else
    ['\\', 'U'] ++ (List.map (fun s => hexDigit (r.toNat / 16 ^ s)) [7, 6, 5, 4, 3, 2, 1, 0])

/-- Go's `strconv.Quote`, which is what the verb `%q` applies to a string. -/
def strconvQuote (table : Char → Bool) (s : String) : String :=
  ⟨'"' :: (s.data.flatMap (appendEscapedRune table)) ++ ['"']⟩

/-- The text of an error built by `errors.Wrapf(err, format, args...)`: the formatted
message, a colon and a blank, then the text of the wrapped error. -/
def wrapfError (cause : String) (message : String) : String :=
  message ++ ": " ++ cause

/-- Substring containment, on the characters of the two strings. -/
def Contains (s sub : String) : Prop := sub.data <:+: s.data

instance (s sub : String) : Decidable (Contains s sub) :=
  inferInstanceAs (Decidable (sub.data <:+: s.data))

/-! ## The outside world -/

/-- A `*grpc.ClientConn` that is not nil, identified by a handle. -/
structure ClientConn where
  id : Nat
  deriving DecidableEq, Repr

/-- The two results of `grpc.DialContext`. -/
structure DialResult where
  conn : Option ClientConn
  err : Option String
  deriving DecidableEq, Repr

/-- Everything outside the program that `main` consults. -/
structure World where
  /-- The function `os.Getenv`: the value of a variable, `""` when it is unset. -/
  getenv : String → String
  /-- The Unicode tables behind `strconv.IsPrint` for runes above U+00FF. -/
  printable : Char → Bool
  /-- The outcome of the `n`-th call (from 0) of `grpc.DialContext`, made with the
  given target address under the three second deadline. -/
  dialContext : Nat → String → DialResult
  /-- The error returned by `newrelic.NewApplication`, if any. -/
  newApplication : Option String
  /-- The error `http.ListenAndServe` returns with, or `none` when it serves for
  ever. -/
  listenAndServe : Option String

/-- What a call that may panic leaves behind: the memory it had write access to,
and the panic value when it panicked. -/
structure Ran (σ : Type) where
  mem : σ
  panicked : Option String
  deriving DecidableEq, Repr

/-! ## `mustMapEnv` and `mustConnGRPC` (`main.go` 235-255) -/

/-- The function `mustMapEnv(target, envKey)`; `target` is the string the pointer
refers to. -/
def mustMapEnv (w : World) (target : String) (envKey : String) : Ran String :=
  let v := w.getenv envKey
  if v = "" then
    ⟨target, some ("environment variable " ++ strconvQuote w.printable envKey ++ " not set")⟩
  else
    ⟨v, none⟩

/-- The function `mustConnGRPC(ctx, conn, addr)`; `conn` is the pointer variable the
first result of the dial is assigned to, whatever the second, and `dial` the outcome
of this call of `grpc.DialContext`. -/
def mustConnGRPC (dial : String → DialResult) (_conn : Option ClientConn) (addr : String) :
    Ran (Option ClientConn) :=
  let r := dial addr
  match r.err with
  | some err => ⟨r.conn, some (wrapfError err ("grpc: failed to connect " ++ addr))⟩
  | none => ⟨r.conn, none⟩

/-! ## The server aggregate (`main.go` 64-85) -/

structure frontendServer where
  productCatalogSvcAddr : String := ""
  productCatalogSvcConn : Option ClientConn := none
  currencySvcAddr : String := ""
  currencySvcConn : Option ClientConn := none
  cartSvcAddr : String := ""
  cartSvcConn : Option ClientConn := none
  recommendationSvcAddr : String := ""
  recommendationSvcConn : Option ClientConn := none
  checkoutSvcAddr : String := ""
  checkoutSvcConn : Option ClientConn := none
  shippingSvcAddr : String := ""
  shippingSvcConn : Option ClientConn := none
  adSvcAddr : String := ""
  adSvcConn : Option ClientConn := none
  deriving DecidableEq, Repr

/-! ## The router (`github.com/gorilla/mux`), as far as `main` uses it -/

/-- The part of an `*http.Request` that routing looks at. -/
structure Request where
  Method : String
  Path : String
  deriving DecidableEq, Repr

/-- A piece of a path template: literal text, or a `{name}` variable. -/
inductive Seg
  | lit (text : List Char)
  | var (name : List Char)
  deriving DecidableEq, Repr

/-- Splits a path template at its braces. Only the `{name}` form of a variable is
covered (no `{name:pattern}`), which is the only form `main` registers. -/
def parseTemplate : List Char → Bool → List Char → List Seg
  | [], _, acc => if acc = [] then [] else [Seg.lit acc]
  | c :: cs, inVar, acc =>
    if c = '{' ∧ inVar = false then
      (if acc = [] then [] else [Seg.lit acc]) ++ parseTemplate cs true []
    else if c = '}' ∧ inVar = true then
      Seg.var acc :: parseTemplate cs false []
    else
      parseTemplate cs inVar (acc ++ [c])

/-- Whether the regular expression mux compiles from a template matches a path: the
expression is anchored at the start, a literal matches itself, a variable matches
`[^/]+`, and it is anchored at the end exactly when `toEnd` holds. -/
def matchSegs (toEnd : Bool) : List Seg → List Char → Bool
  | [], rest => !toEnd || rest.isEmpty
  | Seg.lit l :: segs, cs => l.isPrefixOf cs && matchSegs toEnd segs (cs.drop l.length)
  | Seg.var _ :: segs, cs =>
    (List.range (cs.takeWhile (fun c => c ≠ '/')).length).any
      (fun k => matchSegs toEnd segs (cs.drop (k + 1)))

/-- A matcher attached to a route. -/
inductive Matcher
  /-- From `Path(tpl)`: the whole path must match the template. -/
  | path (tpl : String)
  /-- From `PathPrefix(tpl)`: the path must start with a match of the template. -/
  | pathStart (tpl : String)
  /-- From `Methods(ms...)`: the request method must be one of `ms`. -/
  | methods (ms : List String)
  deriving DecidableEq, Repr

def Matcher.isMethods : Matcher → Bool
  | Matcher.methods _ => true
  | _ => false

def Matcher.Match (req : Request) : Matcher → Bool
  | Matcher.path tpl => matchSegs true (parseTemplate tpl.data false []) req.Path.data
  | Matcher.pathStart tpl => matchSegs false (parseTemplate tpl.data false []) req.Path.data
  | Matcher.methods ms => ms.contains req.Method

/-- The methods of `*frontendServer` that `main` registers; their bodies are in
another file of the package. -/
inductive SvcHandler
  | homeHandler
  | productHandler
  | viewCartHandler
  | addToCartHandler
  | emptyCartHandler
  | setCurrencyHandler
  | logoutHandler
  | placeOrderHandler
  deriving DecidableEq, Repr

/-- The handlers `main` attaches to routes. -/
inductive RouteHandler
  /-- The second result of `newrelic.WrapHandleFunc(app, pattern, svc.h)`. -/
  | newrelicWrapped (pattern : String) (h : SvcHandler)
  /-- The file server `http.StripPrefix("/static/", http.FileServer(http.Dir("./static/")))`. -/
  | staticFiles
  /-- The function literal registered for `/robots.txt`. -/
  | robotsTxt
  /-- The function literal registered for `/_healthz`. -/
  | healthz
  deriving DecidableEq, Repr

structure Route where
  matchers : List Matcher
  handler : Option RouteHandler
  deriving DecidableEq, Repr

def Route.Path (rt : Route) (tpl : String) : Route :=
  { rt with matchers := rt.matchers ++ [Matcher.path tpl] }

def Route.PathPrefix (rt : Route) (tpl : String) : Route :=
  { rt with matchers := rt.matchers ++ [Matcher.pathStart tpl] }

/-- Go's `strings.ToUpper` on the ASCII letters, rune by rune; the method names
`main` passes are ASCII. -/
def toUpper (s : String) : String := ⟨s.data.map Char.toUpper⟩

/-- The call `Methods(ms...)`, which upper-cases the names it is given. -/
def Route.Methods (rt : Route) (ms : List String) : Route :=
  { rt with matchers := rt.matchers ++ [Matcher.methods (ms.map toUpper)] }

def Route.Handler (rt : Route) (h : RouteHandler) : Route :=
  { rt with handler := some h }

/-- A `*mux.Router`: its routes in registration order. The `*Route` that
`HandleFunc` and `PathPrefix` return is the last one of the list, and a call
chained on it updates that route in place. -/
structure Router where
  routes : List Route
  deriving DecidableEq, Repr

def NewRouter : Router := ⟨[]⟩

def Router.onLast (r : Router) (f : Route → Route) : Router :=
  match r.routes.reverse with
  | [] => r
  | rt :: before => ⟨(f rt :: before).reverse⟩

def Router.HandleFunc (r : Router) (pf : String × RouteHandler) : Router :=
  ⟨r.routes ++ [((Route.mk [] none).Path pf.1).Handler pf.2]⟩

def Router.PathPrefix (r : Router) (tpl : String) : Router :=
  ⟨r.routes ++ [(Route.mk [] none).PathPrefix tpl]⟩

def Router.Methods (r : Router) (ms : List String) : Router :=
  r.onLast (fun rt => rt.Methods ms)

def Router.Handler (r : Router) (h : RouteHandler) : Router :=
  r.onLast (fun rt => rt.Handler h)

/-- The two results of `newrelic.WrapHandleFunc(app, pattern, handler)`: the pattern
unchanged and the instrumented handler. -/
def WrapHandleFunc (pattern : String) (h : SvcHandler) : String × RouteHandler :=
  (pattern, RouteHandler.newrelicWrapped pattern h)

def MethodGet : String := "GET"
def MethodHead : String := "HEAD"
def MethodPost : String := "POST"

inductive MatchErr
  | ErrMethodMismatch
  | ErrNotFound
  deriving DecidableEq, Repr

/-- The fields of `mux.RouteMatch` that decide which handler runs. -/
structure RouteMatch where
  Handler : Option RouteHandler
  MatchErr : Option MatchErr
  deriving DecidableEq, Repr

/-- The loop of `Route.Match` over the matchers. `none`: a matcher other than a
method matcher failed and the route returns false at once; `some e`: the loop ran
to its end with the local `matchErr` equal to `e`. -/
def Route.matchLoop (req : Request) : List Matcher → Option MatchErr → Option (Option MatchErr)
  | [], e => some e
  | m :: ms, e =>
    if m.Match req then Route.matchLoop req ms e
    else if m.isMethods then Route.matchLoop req ms (some MatchErr.ErrMethodMismatch)
    else none

/-- The method `(*Route).Match`. -/
def Route.Match (rt : Route) (req : Request) (mt : RouteMatch) : Bool × RouteMatch :=
  match Route.matchLoop req rt.matchers none with
  | none =>
    (false, if mt.MatchErr = some MatchErr.ErrNotFound then { mt with MatchErr := none } else mt)
  | some (some e) => (false, { mt with MatchErr := some e })
  | some none =>
    let mt1 : RouteMatch :=
      if mt.MatchErr = some MatchErr.ErrMethodMismatch ∧ rt.handler.isSome then
        { Handler := rt.handler, MatchErr := none }
      else mt
    let mt2 : RouteMatch :=
      if mt1.Handler.isNone then { mt1 with Handler := rt.handler } else mt1
    (true, mt2)

/-- The method `(*Router).Match` on a router with no `MethodNotAllowedHandler` and no
`NotFoundHandler` set, as `main` leaves it. -/
def Router.matchRoutes (req : Request) : List Route → RouteMatch → Bool × RouteMatch
  | [], mt =>
    if mt.MatchErr = some MatchErr.ErrMethodMismatch then (false, mt)
    else (false, { mt with MatchErr := some MatchErr.ErrNotFound })
  | rt :: rest, mt =>
    let res := rt.Match req mt
    if res.1 then (true, res.2) else Router.matchRoutes req rest res.2

/-! ### Path cleaning

`main` never calls `SkipClean`, so `(*Router).ServeHTTP` first brings the path to its
canonical form and answers with a redirect when the two differ. -/

/-- Splits a path at every slash; `acc` is the element being read. -/
def splitSlash : List Char → List Char → List (List Char)
  | [], acc => [acc]
  | c :: cs, acc => if c = '/' then acc :: splitSlash cs [] else splitSlash cs (acc ++ [c])

/-- One element of a path in Go's `path.Clean`; `stack` holds the elements kept so
far, the last one first. Empty elements and `.` are dropped; `..` removes the element
before it, is dropped at the root of a rooted path, and is kept otherwise. -/
def cleanStep (rooted : Bool) (stack : List (List Char)) (seg : List Char) :
    List (List Char) :=
  if seg = [] ∨ seg = ['.'] then stack
  else if seg = ['.', '.'] then
    match stack with
    | top :: below => if top = ['.', '.'] then seg :: stack else below
    | [] => if rooted then [] else [seg]
  else seg :: stack

/-- Go's `path.Clean`. -/
def pathClean (p : String) : String :=
  let rooted : Bool := p.data.head? = some '/'
  let kept := ((splitSlash p.data []).foldl (cleanStep rooted) []).reverse
  let out := (if rooted then ['/'] else []) ++ List.intercalate ['/'] kept
  if out = [] then "." else ⟨out⟩

/-- The function `cleanPath` of mux: the empty path becomes `/`, a path is made
rooted, cleaned by `path.Clean`, and gets back the trailing slash that cleaning
removed. -/
def cleanPath (p : String) : String :=
  if p = "" then "/"
  else
    let p1 : String := if p.data.head? = some '/' then p else "/" ++ p
    let np := pathClean p1
    if p1.data.getLast? = some '/' ∧ np ≠ "/" then np ++ "/" else np

/-- Where `(*Router).ServeHTTP` sends a request. -/
inductive Dispatch
  /-- The path is not clean: the reply is a redirect to the URL with the clean path,
  and no route is tried. -/
  | redirect (path : String)
  | handler (h : RouteHandler)
  | methodNotAllowed
  | notFound
  deriving DecidableEq, Repr

/-- The choice of handler in `(*Router).ServeHTTP` once the path is known to be
clean. -/
def Router.choose (r : Router) (req : Request) : Dispatch :=
  let res := Router.matchRoutes req r.routes ⟨none, none⟩
  let handler : Option RouteHandler := if res.1 then res.2.Handler else none
  match handler with
  | some h => Dispatch.handler h
  | none =>
    if res.2.MatchErr = some MatchErr.ErrMethodMismatch then Dispatch.methodNotAllowed
    else Dispatch.notFound

/-- What `(*Router).ServeHTTP` does with a request: the redirect for a path that is
not clean, and otherwise the choice among the routes. -/
def Router.dispatch (r : Router) (req : Request) : Dispatch :=
  if cleanPath req.Path ≠ req.Path then Dispatch.redirect (cleanPath req.Path)
  else r.choose req

/-! ## Running a route's handler -/

/-- An `http.ResponseWriter`: the status line once it has been written, and the body
written so far. Header fields are not kept. -/
structure ResponseWriter where
  status : Option Nat
  body : String
  deriving DecidableEq, Repr

/-- A response nothing has been written to yet. -/
def ResponseWriter.fresh : ResponseWriter := ⟨none, ""⟩

def StatusOK : Nat := 200
def StatusMovedPermanently : Nat := 301

/-- The call `w.Write(p)`: the first write sends the header with `StatusOK` if no header has
been sent. -/
def ResponseWriter.Write (w : ResponseWriter) (p : String) : ResponseWriter :=
  { status := some (w.status.getD StatusOK), body := w.body ++ p }

/-- The call `w.WriteHeader(code)`, which counts only the first time. -/
def ResponseWriter.WriteHeader (w : ResponseWriter) (code : Nat) : ResponseWriter :=
  { w with status := some (w.status.getD code) }

/-- The backend roles, one per channel field of `frontendServer`. -/
inductive Backend
  | productCatalog
  | currency
  | cart
  | recommendation
  | checkout
  | shipping
  | ad
  deriving DecidableEq, Repr

/-- What running a handler on a request leaves: the response, and the upstream
channels the handler made calls on. -/
structure Served where
  w : ResponseWriter
  upstream : List Backend
  deriving DecidableEq, Repr

/-- What the handlers defined outside `main.go` do: the eight `frontendServer`
methods behind their instrumentation, and the static file server. -/
abbrev External := RouteHandler → frontendServer → Request → ResponseWriter → Served

/-- Runs a route's handler. The two function literals of `main` (lines 151-152)
print a fixed text to the response and touch nothing else. -/
def RouteHandler.ServeHTTP (ext : External) (svc : frontendServer) (h : RouteHandler)
    (req : Request) (w : ResponseWriter) : Served :=
  match h with
  | RouteHandler.robotsTxt => ⟨w.Write "User-agent: *\nDisallow: /", []⟩
  | RouteHandler.healthz => ⟨w.Write "ok", []⟩
  | other => ext other svc req w

/-- The method `(*Router).ServeHTTP`: the redirect reply for a path that is not clean
(status 301, its `Location` being the URL with the path `Dispatch.redirect` holds),
the chosen handler, or mux's replies for a method mismatch and for no match. -/
def Router.ServeHTTP (ext : External) (svc : frontendServer) (r : Router)
    (req : Request) (w : ResponseWriter) : Served :=
  match r.dispatch req with
  | Dispatch.redirect _ => ⟨w.WriteHeader StatusMovedPermanently, []⟩
  | Dispatch.handler h => h.ServeHTTP ext svc req w
  | Dispatch.methodNotAllowed => ⟨w.WriteHeader 405, []⟩
  | Dispatch.notFound => ⟨(w.WriteHeader 404).Write "404 page not found\n", []⟩

/-! ## The middleware chain -/

/-- The `http.Handler` values `main` builds. -/
inductive Handler
  /-- The router itself. -/
  | router (r : Router)
  /-- The struct literal `&logHandler{log: log, next: next}`. -/
  | logHandler (next : Handler)
  /-- The result of `ensureSessionID(next)`. -/
  | ensureSessionID (next : Handler)
  deriving DecidableEq, Repr

/-- The components a request passes through. -/
inductive Layer
  | logHandler
  | ensureSessionID
  | router
  deriving DecidableEq, Repr

/-- Modelled from the spec: the `ServeHTTP` of `logHandler` and of the handler that
`ensureSessionID` returns are not in `main.go`; by sections 4.3 and 4.4 each does
its own work when the request enters and then delegates to the handler it wraps.
The list is the order in which a request enters the components, outermost first. -/
def Handler.entryOrder : Handler → List Layer
  | Handler.router _ => [Layer.router]
  | Handler.logHandler next => Layer.logHandler :: next.entryOrder
  | Handler.ensureSessionID next => Layer.ensureSessionID :: next.entryOrder

/-! ## `main` (`main.go` 87-160) -/

/-- The calls `main` makes that reach outside the process, with their outcome. -/
inductive Effect
  /-- A call of `grpc.DialContext` for the address, and the error it returned. -/
  | dial (addr : String) (err : Option String)
  /-- The call `newrelic.NewApplication`, and the error it returned. -/
  | newApplication (err : Option String)
  /-- A call of `log.Info` or `log.Infof`, with the string passed to it. -/
  | logInfo (msg : String)
  /-- The call `http.ListenAndServe(addr, handler)`, which opens the listener. -/
  | listenAndServe (addr : String) (handler : Handler)
  deriving DecidableEq, Repr

def Effect.isDial : Effect → Bool
  | Effect.dial _ _ => true
  | _ => false

def Effect.isListen : Effect → Bool
  | Effect.listenAndServe _ _ => true
  | _ => false

/-- How `main` stops. -/
inductive Exit
  /-- A panic with the given value reached the top of `main`. -/
  | panic (value : String)
  /-- The call `log.Fatal`, which logs its argument and exits with status 1. -/
  | fatal (msg : String)
  /-- The call `http.ListenAndServe` never returns: the process serves. -/
  | serving
  deriving DecidableEq, Repr

/-- The memory of `main` that the claims look at: the aggregate `svc` points to and
the calls made so far, oldest first. -/
structure Mem where
  svc : frontendServer
  trace : List Effect
  deriving DecidableEq, Repr

/-- One step of `main`: it goes on with a value, or it stops. -/
inductive Step (α : Type)
  | next (a : α) (m : Mem)
  | halt (e : Exit) (m : Mem)

/-- A piece of `main`. -/
def Prog (α : Type) : Type := Mem → Step α

def Prog.pure {α : Type} (a : α) : Prog α := fun m => Step.next a m

def Prog.bind {α β : Type} (p : Prog α) (f : α → Prog β) : Prog β := fun m =>
  match p m with
  | Step.next a m1 => f a m1
  | Step.halt e m1 => Step.halt e m1

instance : Monad Prog where
  pure := Prog.pure
  bind := Prog.bind

def emit (e : Effect) : Prog Unit := fun m =>
  Step.next () { m with trace := m.trace ++ [e] }

def halt (e : Exit) : Prog Unit := fun m => Step.halt e m

/-- The statement `mustMapEnv(&svc.f, envKey)`, for the field `f` read by `get` and
written by `set`. -/
def callMustMapEnv (w : World) (get : frontendServer → String)
    (set : frontendServer → String → frontendServer) (envKey : String) : Prog Unit := fun m =>
  let r := mustMapEnv w (get m.svc) envKey
  let m1 : Mem := { m with svc := set m.svc r.mem }
  match r.panicked with
  | some v => Step.halt (Exit.panic v) m1
  | none => Step.next () m1

/-- The statement `mustConnGRPC(ctx, &svc.c, svc.a)`, the `n`-th dial of the run, for
the field `c` read by `get` and written by `set` and the address field `a` read by
`addr`. The dial the call performs is recorded. -/
def callMustConnGRPC (w : World) (n : Nat) (get : frontendServer → Option ClientConn)
    (set : frontendServer → Option ClientConn → frontendServer)
    (addr : frontendServer → String) : Prog Unit := fun m =>
  let r := mustConnGRPC (w.dialContext n) (get m.svc) (addr m.svc)
  let m1 : Mem :=
    { svc := set m.svc r.mem
      trace := m.trace ++ [Effect.dial (addr m.svc) (w.dialContext n (addr m.svc)).err] }
  match r.panicked with
  | some v => Step.halt (Exit.panic v) m1
  | none => Step.next () m1

/-- The route registrations of `main`, lines 141-152. -/
def registerRoutes (r : Router) : Router :=
  let r := (r.HandleFunc (WrapHandleFunc "/" SvcHandler.homeHandler)).Methods [MethodGet, MethodHead]
  let r := (r.HandleFunc (WrapHandleFunc "/product/{id}" SvcHandler.productHandler)).Methods [MethodGet, MethodHead]
  let r := (r.HandleFunc (WrapHandleFunc "/cart" SvcHandler.viewCartHandler)).Methods [MethodGet, MethodHead]
  let r := (r.HandleFunc (WrapHandleFunc "/cart" SvcHandler.addToCartHandler)).Methods [MethodPost]
  let r := (r.HandleFunc (WrapHandleFunc "/cart/empty" SvcHandler.emptyCartHandler)).Methods [MethodPost]
  let r := (r.HandleFunc (WrapHandleFunc "/setCurrency" SvcHandler.setCurrencyHandler)).Methods [MethodPost]
  let r := (r.HandleFunc (WrapHandleFunc "/logout" SvcHandler.logoutHandler)).Methods [MethodGet]
  let r := (r.HandleFunc (WrapHandleFunc "/cart/checkout" SvcHandler.placeOrderHandler)).Methods [MethodPost]
  let r := (r.PathPrefix "/static/").Handler RouteHandler.staticFiles
  let r := r.HandleFunc ("/robots.txt", RouteHandler.robotsTxt)
  let r := r.HandleFunc ("/_healthz", RouteHandler.healthz)
  r

/-- The body of `main`. The logger set-up (lines 88-99) has no outcome the model
follows. -/
def mainBody (w : World) : Prog Unit := do
  let srvPort := if w.getenv "PORT" ≠ "" then w.getenv "PORT" else port
  let addr := w.getenv "LISTEN_ADDR"
  callMustMapEnv w (fun s => s.productCatalogSvcAddr)
    (fun s v => { s with productCatalogSvcAddr := v }) "PRODUCT_CATALOG_SERVICE_ADDR"
  callMustMapEnv w (fun s => s.currencySvcAddr)
    (fun s v => { s with currencySvcAddr := v }) "CURRENCY_SERVICE_ADDR"
  callMustMapEnv w (fun s => s.cartSvcAddr)
    (fun s v => { s with cartSvcAddr := v }) "CART_SERVICE_ADDR"
  callMustMapEnv w (fun s => s.recommendationSvcAddr)
    (fun s v => { s with recommendationSvcAddr := v }) "RECOMMENDATION_SERVICE_ADDR"
  callMustMapEnv w (fun s => s.checkoutSvcAddr)
    (fun s v => { s with checkoutSvcAddr := v }) "CHECKOUT_SERVICE_ADDR"
  callMustMapEnv w (fun s => s.shippingSvcAddr)
    (fun s v => { s with shippingSvcAddr := v }) "SHIPPING_SERVICE_ADDR"
  callMustMapEnv w (fun s => s.adSvcAddr)
    (fun s v => { s with adSvcAddr := v }) "AD_SERVICE_ADDR"

  callMustConnGRPC w 0 (fun s => s.currencySvcConn)
    (fun s c => { s with currencySvcConn := c }) (fun s => s.currencySvcAddr)
  callMustConnGRPC w 1 (fun s => s.productCatalogSvcConn)
    (fun s c => { s with productCatalogSvcConn := c }) (fun s => s.productCatalogSvcAddr)
  callMustConnGRPC w 2 (fun s => s.cartSvcConn)
    (fun s c => { s with cartSvcConn := c }) (fun s => s.cartSvcAddr)
  callMustConnGRPC w 3 (fun s => s.recommendationSvcConn)
    (fun s c => { s with recommendationSvcConn := c }) (fun s => s.recommendationSvcAddr)
  callMustConnGRPC w 4 (fun s => s.shippingSvcConn)
    (fun s c => { s with shippingSvcConn := c }) (fun s => s.shippingSvcAddr)
  callMustConnGRPC w 5 (fun s => s.checkoutSvcConn)
    (fun s c => { s with checkoutSvcConn := c }) (fun s => s.checkoutSvcAddr)
  callMustConnGRPC w 6 (fun s => s.adSvcConn)
    (fun s c => { s with adSvcConn := c }) (fun s => s.adSvcAddr)

  emit (Effect.newApplication w.newApplication)
  match w.newApplication with
  | some nrerr => halt (Exit.fatal nrerr)
  | none => emit (Effect.logInfo "newrelic integrated")
  let r := registerRoutes NewRouter

  let handler := Handler.router r
  let handler := Handler.logHandler handler
  let handler := Handler.ensureSessionID handler

  emit (Effect.logInfo ("starting server on " ++ addr ++ ":" ++ srvPort))
  emit (Effect.listenAndServe (addr ++ ":" ++ srvPort) handler)
  match w.listenAndServe with
  | some err => halt (Exit.fatal err)
  | none => halt Exit.serving

/-- The end of a run of `main`. -/
structure Final where
  exit : Option Exit
  svc : frontendServer
  trace : List Effect
  deriving DecidableEq, Repr

/-- Runs `main` from `svc := new(frontendServer)`, all fields zero, and no call made
yet. `exit` is `none` only if `main` returned, which its last statement rules
out. -/
def main (w : World) : Final :=
  match mainBody w ⟨{}, []⟩ with
  | Step.next _ m => ⟨none, m.svc, m.trace⟩
  | Step.halt e m => ⟨some e, m.svc, m.trace⟩

/-! ## Worlds used as concrete inputs -/

/-- A world in which `PORT` and `LISTEN_ADDR` are unset, every other variable `K`
holds `K:443`, every call succeeds, and the `n`-th dial returns a connection numbered
from `n` and the length of the address. -/
def goodWorld : World where
  getenv := fun k => if k = "PORT" ∨ k = "LISTEN_ADDR" then "" else k ++ ":443"
  printable := fun _ => true
  dialContext := fun n addr => ⟨some ⟨100 * addr.length + n⟩, none⟩
  newApplication := none
  listenAndServe := none

/-- As `goodWorld`, with `PORT` set to `9090` and `LISTEN_ADDR` to `0.0.0.0`. -/
def customPortWorld : World :=
  { goodWorld with
    getenv := fun k =>
      if k = "PORT" then "9090" else if k = "LISTEN_ADDR" then "0.0.0.0" else k ++ ":443" }

/-- As `goodWorld`, with `AD_SERVICE_ADDR` unset. -/
def missingAdWorld : World :=
  { goodWorld with
    getenv := fun k =>
      if k = "PORT" ∨ k = "LISTEN_ADDR" ∨ k = "AD_SERVICE_ADDR" then "" else k ++ ":443" }

/-- As `goodWorld`, with the cart service at `cart:7070` and its dial, the third of
the run, ending in an error. -/
def cartDownWorld : World :=
  { goodWorld with
    getenv := fun k =>
      if k = "PORT" ∨ k = "LISTEN_ADDR" then ""
      else if k = "CART_SERVICE_ADDR" then "cart:7070" else k ++ ":443"
    dialContext := fun n addr =>
      if n = 2 then ⟨none, some "context deadline exceeded"⟩
      else ⟨some ⟨100 * addr.length + n⟩, none⟩ }

/-- A world with an empty environment. -/
def emptyWorld : World where
  getenv := fun _ => ""
  printable := fun _ => true
  dialContext := fun n _ => ⟨some ⟨n⟩, none⟩
  newApplication := none
  listenAndServe := none

/-! ## Vocabulary for statements about `main` -/

/-- The seven required variables, in the order `main` reads them. -/
def requiredEnv : List String :=
  ["PRODUCT_CATALOG_SERVICE_ADDR", "CURRENCY_SERVICE_ADDR", "CART_SERVICE_ADDR",
   "RECOMMENDATION_SERVICE_ADDR", "CHECKOUT_SERVICE_ADDR", "SHIPPING_SERVICE_ADDR",
   "AD_SERVICE_ADDR"]

/-- The seven dials of `main` in the order it makes them, each for the address held
by the named variable, return no error. -/
def DialsSucceed (w : World) : Prop :=
  (w.dialContext 0 (w.getenv "CURRENCY_SERVICE_ADDR")).err = none ∧
  (w.dialContext 1 (w.getenv "PRODUCT_CATALOG_SERVICE_ADDR")).err = none ∧
  (w.dialContext 2 (w.getenv "CART_SERVICE_ADDR")).err = none ∧
  (w.dialContext 3 (w.getenv "RECOMMENDATION_SERVICE_ADDR")).err = none ∧
  (w.dialContext 4 (w.getenv "SHIPPING_SERVICE_ADDR")).err = none ∧
  (w.dialContext 5 (w.getenv "CHECKOUT_SERVICE_ADDR")).err = none ∧
  (w.dialContext 6 (w.getenv "AD_SERVICE_ADDR")).err = none

instance (w : World) : Decidable (DialsSucceed w) := by
  unfold DialsSucceed
  infer_instance

/-- The address `main` hands to `http.ListenAndServe`. -/
def listenAddress (w : World) : String :=
  w.getenv "LISTEN_ADDR" ++ ":" ++ (if w.getenv "PORT" ≠ "" then w.getenv "PORT" else "8080")

/-- The handler `main` hands to `http.ListenAndServe`. -/
def servedHandler : Handler :=
  Handler.ensureSessionID (Handler.logHandler (Handler.router (registerRoutes NewRouter)))

/-! ## Lemmas on formatting -/

theorem contains_middle (a b c : String) : Contains (a ++ b ++ c) b := by
  unfold Contains
  simp only [String.data_append]
  exact ⟨a.data, c.data, rfl⟩

/-- A rune that is printable and neither a quote nor a backslash is copied as it is. -/
theorem appendEscapedRune_plain (table : Char → Bool) (r : Char)
    (h : r ≠ '"' ∧ r ≠ '\\' ∧ isPrint table r = true) :
    appendEscapedRune table r = [r] := by
  unfold appendEscapedRune
  simp [h.1, h.2.1, h.2.2]

theorem flatMap_plain (table : Char → Bool) (cs : List Char)
    (h : ∀ c ∈ cs, c ≠ '"' ∧ c ≠ '\\' ∧ isPrint table c = true) :
    cs.flatMap (appendEscapedRune table) = cs := by
  induction cs with
  | nil => rfl
  | cons c cs ih =>
    have hc := h c (List.mem_cons_self c cs)
    have hcs : ∀ d ∈ cs, d ≠ '"' ∧ d ≠ '\\' ∧ isPrint table d = true :=
      fun d hd => h d (List.mem_cons_of_mem c hd)
    simp [List.flatMap_cons, appendEscapedRune_plain table c hc, ih hcs]

/-- On a string of printable runes without quote or backslash, `%q` only adds the
surrounding quotes. -/
theorem strconvQuote_plain (table : Char → Bool) (s : String)
    (h : ∀ c ∈ s.data, c ≠ '"' ∧ c ≠ '\\' ∧ isPrint table c = true) :
    strconvQuote table s = "\"" ++ s ++ "\"" := by
  apply String.ext
  simp [strconvQuote, flatMap_plain table s.data h, String.data_append]

/-! ## Lemmas on the runs of `main` -/

/-- The listener is opened only in a run in which the seven variables are set, the
seven dials return no error and the New Relic application is created; it is then
opened on `LISTEN_ADDR:PORT` with the handler built at lines 154-156. -/
theorem listen_mem_trace (w : World) (a : String) (h : Handler)
    (hmem : Effect.listenAndServe a h ∈ (main w).trace) :
    (∀ k ∈ requiredEnv, w.getenv k ≠ "") ∧ DialsSucceed w ∧ w.newApplication = none ∧
    a = listenAddress w ∧ h = servedHandler := by
  simp only [requiredEnv, List.forall_mem_cons, List.not_mem_nil, forall_false, implies_true,
    and_true, DialsSucceed, listenAddress, servedHandler]
  by_cases e0 : w.getenv "PRODUCT_CATALOG_SERVICE_ADDR" = ""
  · simp [main, mainBody, bind, Prog.bind, callMustMapEnv, callMustConnGRPC, mustMapEnv, mustConnGRPC, emit, halt, e0] at hmem
  by_cases e1 : w.getenv "CURRENCY_SERVICE_ADDR" = ""
  · simp [main, mainBody, bind, Prog.bind, callMustMapEnv, callMustConnGRPC, mustMapEnv, mustConnGRPC, emit, halt, e0, e1] at hmem
  by_cases e2 : w.getenv "CART_SERVICE_ADDR" = ""
  · simp [main, mainBody, bind, Prog.bind, callMustMapEnv, callMustConnGRPC, mustMapEnv, mustConnGRPC, emit, halt, e0, e1, e2] at hmem
  by_cases e3 : w.getenv "RECOMMENDATION_SERVICE_ADDR" = ""
  · simp [main, mainBody, bind, Prog.bind, callMustMapEnv, callMustConnGRPC, mustMapEnv, mustConnGRPC, emit, halt, e0, e1, e2, e3] at hmem
  by_cases e4 : w.getenv "CHECKOUT_SERVICE_ADDR" = ""
  · simp [main, mainBody, bind, Prog.bind, callMustMapEnv, callMustConnGRPC, mustMapEnv, mustConnGRPC, emit, halt, e0, e1, e2, e3, e4] at hmem
  by_cases e5 : w.getenv "SHIPPING_SERVICE_ADDR" = ""
  · simp [main, mainBody, bind, Prog.bind, callMustMapEnv, callMustConnGRPC, mustMapEnv, mustConnGRPC, emit, halt, e0, e1, e2, e3, e4, e5] at hmem
  by_cases e6 : w.getenv "AD_SERVICE_ADDR" = ""
  · simp [main, mainBody, bind, Prog.bind, callMustMapEnv, callMustConnGRPC, mustMapEnv, mustConnGRPC, emit, halt, e0, e1, e2, e3, e4, e5, e6] at hmem
  rcases d0 : (w.dialContext 0 (w.getenv "CURRENCY_SERVICE_ADDR")).err with _ | err
  swap
  · simp [main, mainBody, bind, Prog.bind, callMustMapEnv, callMustConnGRPC, mustMapEnv, mustConnGRPC, emit, halt, e0, e1, e2, e3, e4, e5, e6, d0] at hmem
  rcases d1 : (w.dialContext 1 (w.getenv "PRODUCT_CATALOG_SERVICE_ADDR")).err with _ | err
  swap
  · simp [main, mainBody, bind, Prog.bind, callMustMapEnv, callMustConnGRPC, mustMapEnv, mustConnGRPC, emit, halt, e0, e1, e2, e3, e4, e5, e6, d0, d1] at hmem
  rcases d2 : (w.dialContext 2 (w.getenv "CART_SERVICE_ADDR")).err with _ | err
  swap
  · simp [main, mainBody, bind, Prog.bind, callMustMapEnv, callMustConnGRPC, mustMapEnv, mustConnGRPC, emit, halt, e0, e1, e2, e3, e4, e5, e6, d0, d1, d2] at hmem
  rcases d3 : (w.dialContext 3 (w.getenv "RECOMMENDATION_SERVICE_ADDR")).err with _ | err
  swap
  · simp [main, mainBody, bind, Prog.bind, callMustMapEnv, callMustConnGRPC, mustMapEnv, mustConnGRPC, emit, halt, e0, e1, e2, e3, e4, e5, e6, d0, d1, d2, d3] at hmem
  rcases d4 : (w.dialContext 4 (w.getenv "SHIPPING_SERVICE_ADDR")).err with _ | err
  swap
  · simp [main, mainBody, bind, Prog.bind, callMustMapEnv, callMustConnGRPC, mustMapEnv, mustConnGRPC, emit, halt, e0, e1, e2, e3, e4, e5, e6, d0, d1, d2, d3, d4] at hmem
  rcases d5 : (w.dialContext 5 (w.getenv "CHECKOUT_SERVICE_ADDR")).err with _ | err
  swap
  · simp [main, mainBody, bind, Prog.bind, callMustMapEnv, callMustConnGRPC, mustMapEnv, mustConnGRPC, emit, halt, e0, e1, e2, e3, e4, e5, e6, d0, d1, d2, d3, d4, d5] at hmem
  rcases d6 : (w.dialContext 6 (w.getenv "AD_SERVICE_ADDR")).err with _ | err
  swap
  · simp [main, mainBody, bind, Prog.bind, callMustMapEnv, callMustConnGRPC, mustMapEnv, mustConnGRPC, emit, halt, e0, e1, e2, e3, e4, e5, e6, d0, d1, d2, d3, d4, d5, d6] at hmem
  rcases hn : w.newApplication with _ | err
  swap
  · simp [main, mainBody, bind, Prog.bind, callMustMapEnv, callMustConnGRPC, mustMapEnv, mustConnGRPC, emit, halt, e0, e1, e2, e3, e4, e5, e6, d0, d1, d2, d3, d4, d5, d6, hn] at hmem
  cases hl : w.listenAndServe <;>
    simp [main, mainBody, bind, Prog.bind, callMustMapEnv, callMustConnGRPC, mustMapEnv, mustConnGRPC, emit, halt, e0, e1, e2, e3, e4, e5, e6, d0, d1, d2, d3, d4, d5, d6, hn, hl] at hmem <;>
    simp [hmem, port, e0, e1, e2, e3, e4, e5, e6]


/-- A run in which one of the seven variables is empty makes no outside call at all
and ends in the panic of `mustMapEnv` for one of the empty variables. -/
theorem main_env_missing (w : World) (hmiss : ∃ k ∈ requiredEnv, w.getenv k = "") :
    (main w).trace = [] ∧
    ∃ k ∈ requiredEnv, w.getenv k = "" ∧
      (main w).exit = some (Exit.panic
        ("environment variable " ++ strconvQuote w.printable k ++ " not set")) := by
  by_cases e0 : w.getenv "PRODUCT_CATALOG_SERVICE_ADDR" = ""
  · exact ⟨by simp [main, mainBody, bind, Prog.bind, callMustMapEnv, callMustConnGRPC, mustMapEnv, mustConnGRPC, emit, halt, e0], "PRODUCT_CATALOG_SERVICE_ADDR", by simp [requiredEnv], e0,
      by simp [main, mainBody, bind, Prog.bind, callMustMapEnv, callMustConnGRPC, mustMapEnv, mustConnGRPC, emit, halt, e0]⟩
  by_cases e1 : w.getenv "CURRENCY_SERVICE_ADDR" = ""
  · exact ⟨by simp [main, mainBody, bind, Prog.bind, callMustMapEnv, callMustConnGRPC, mustMapEnv, mustConnGRPC, emit, halt, e0, e1], "CURRENCY_SERVICE_ADDR", by simp [requiredEnv], e1,
      by simp [main, mainBody, bind, Prog.bind, callMustMapEnv, callMustConnGRPC, mustMapEnv, mustConnGRPC, emit, halt, e0, e1]⟩
  by_cases e2 : w.getenv "CART_SERVICE_ADDR" = ""
  · exact ⟨by simp [main, mainBody, bind, Prog.bind, callMustMapEnv, callMustConnGRPC, mustMapEnv, mustConnGRPC, emit, halt, e0, e1, e2], "CART_SERVICE_ADDR", by simp [requiredEnv], e2,
      by simp [main, mainBody, bind, Prog.bind, callMustMapEnv, callMustConnGRPC, mustMapEnv, mustConnGRPC, emit, halt, e0, e1, e2]⟩
  by_cases e3 : w.getenv "RECOMMENDATION_SERVICE_ADDR" = ""
  · exact ⟨by simp [main, mainBody, bind, Prog.bind, callMustMapEnv, callMustConnGRPC, mustMapEnv, mustConnGRPC, emit, halt, e0, e1, e2, e3], "RECOMMENDATION_SERVICE_ADDR", by simp [requiredEnv], e3,
      by simp [main, mainBody, bind, Prog.bind, callMustMapEnv, callMustConnGRPC, mustMapEnv, mustConnGRPC, emit, halt, e0, e1, e2, e3]⟩
  by_cases e4 : w.getenv "CHECKOUT_SERVICE_ADDR" = ""
  · exact ⟨by simp [main, mainBody, bind, Prog.bind, callMustMapEnv, callMustConnGRPC, mustMapEnv, mustConnGRPC, emit, halt, e0, e1, e2, e3, e4], "CHECKOUT_SERVICE_ADDR", by simp [requiredEnv], e4,
      by simp [main, mainBody, bind, Prog.bind, callMustMapEnv, callMustConnGRPC, mustMapEnv, mustConnGRPC, emit, halt, e0, e1, e2, e3, e4]⟩
  by_cases e5 : w.getenv "SHIPPING_SERVICE_ADDR" = ""
  · exact ⟨by simp [main, mainBody, bind, Prog.bind, callMustMapEnv, callMustConnGRPC, mustMapEnv, mustConnGRPC, emit, halt, e0, e1, e2, e3, e4, e5], "SHIPPING_SERVICE_ADDR", by simp [requiredEnv], e5,
      by simp [main, mainBody, bind, Prog.bind, callMustMapEnv, callMustConnGRPC, mustMapEnv, mustConnGRPC, emit, halt, e0, e1, e2, e3, e4, e5]⟩
  by_cases e6 : w.getenv "AD_SERVICE_ADDR" = ""
  · exact ⟨by simp [main, mainBody, bind, Prog.bind, callMustMapEnv, callMustConnGRPC, mustMapEnv, mustConnGRPC, emit, halt, e0, e1, e2, e3, e4, e5, e6], "AD_SERVICE_ADDR", by simp [requiredEnv], e6,
      by simp [main, mainBody, bind, Prog.bind, callMustMapEnv, callMustConnGRPC, mustMapEnv, mustConnGRPC, emit, halt, e0, e1, e2, e3, e4, e5, e6]⟩
  exfalso
  simp [requiredEnv, e0, e1, e2, e3, e4, e5, e6] at hmiss


/-- The run of `main` when the seven variables are set and the seven dials return no
error: the aggregate it builds, the calls it makes and how it ends. -/
theorem main_started (w : World) (henv : ∀ k ∈ requiredEnv, w.getenv k ≠ "")
    (hd : DialsSucceed w) :
    (main w).svc =
      { productCatalogSvcAddr := w.getenv "PRODUCT_CATALOG_SERVICE_ADDR"
        productCatalogSvcConn := (w.dialContext 1 (w.getenv "PRODUCT_CATALOG_SERVICE_ADDR")).conn
        currencySvcAddr := w.getenv "CURRENCY_SERVICE_ADDR"
        currencySvcConn := (w.dialContext 0 (w.getenv "CURRENCY_SERVICE_ADDR")).conn
        cartSvcAddr := w.getenv "CART_SERVICE_ADDR"
        cartSvcConn := (w.dialContext 2 (w.getenv "CART_SERVICE_ADDR")).conn
        recommendationSvcAddr := w.getenv "RECOMMENDATION_SERVICE_ADDR"
        recommendationSvcConn := (w.dialContext 3 (w.getenv "RECOMMENDATION_SERVICE_ADDR")).conn
        checkoutSvcAddr := w.getenv "CHECKOUT_SERVICE_ADDR"
        checkoutSvcConn := (w.dialContext 5 (w.getenv "CHECKOUT_SERVICE_ADDR")).conn
        shippingSvcAddr := w.getenv "SHIPPING_SERVICE_ADDR"
        shippingSvcConn := (w.dialContext 4 (w.getenv "SHIPPING_SERVICE_ADDR")).conn
        adSvcAddr := w.getenv "AD_SERVICE_ADDR"
        adSvcConn := (w.dialContext 6 (w.getenv "AD_SERVICE_ADDR")).conn } ∧
    (main w).trace =
      [Effect.dial (w.getenv "CURRENCY_SERVICE_ADDR") none,
       Effect.dial (w.getenv "PRODUCT_CATALOG_SERVICE_ADDR") none,
       Effect.dial (w.getenv "CART_SERVICE_ADDR") none,
       Effect.dial (w.getenv "RECOMMENDATION_SERVICE_ADDR") none,
       Effect.dial (w.getenv "SHIPPING_SERVICE_ADDR") none,
       Effect.dial (w.getenv "CHECKOUT_SERVICE_ADDR") none,
       Effect.dial (w.getenv "AD_SERVICE_ADDR") none] ++
      (match w.newApplication with
       | some nrerr => [Effect.newApplication (some nrerr)]
       | none =>
         [Effect.newApplication none, Effect.logInfo "newrelic integrated",
          Effect.logInfo ("starting server on " ++ listenAddress w),
          Effect.listenAndServe (listenAddress w) servedHandler]) ∧
    (main w).exit = some
      (match w.newApplication with
       | some nrerr => Exit.fatal nrerr
       | none =>
         match w.listenAndServe with
         | some err => Exit.fatal err
         | none => Exit.serving) := by
  simp only [requiredEnv, List.forall_mem_cons, List.not_mem_nil, forall_false, implies_true,
    and_true] at henv
  obtain ⟨e0, e1, e2, e3, e4, e5, e6⟩ := henv
  obtain ⟨d0, d1, d2, d3, d4, d5, d6⟩ := hd
  have sa : ∀ a b c : String, a ++ b ++ c = a ++ (b ++ c) := fun a b c => String.append_assoc a b c
  cases hn : w.newApplication <;> cases hl : w.listenAndServe <;>
    simp [main, mainBody, bind, Prog.bind, callMustMapEnv, callMustConnGRPC, mustMapEnv, mustConnGRPC, emit, halt, e0, e1, e2, e3, e4, e5, e6, d0, d1, d2, d3, d4, d5, d6, hn, hl, listenAddress, servedHandler, port, sa]


/-- A dial that returned an error is the last call of the run: `main` ends in the
panic of `mustConnGRPC` for that address and cause, and the listener is not opened. -/
theorem dial_err_mem_trace (w : World) (addr cause : String)
    (hmem : Effect.dial addr (some cause) ∈ (main w).trace) :
    (main w).exit = some (Exit.panic ("grpc: failed to connect " ++ addr ++ ": " ++ cause)) ∧
    ∀ x ∈ (main w).trace, x.isListen = false := by
  by_cases e0 : w.getenv "PRODUCT_CATALOG_SERVICE_ADDR" = ""
  · simp [main, mainBody, bind, Prog.bind, callMustMapEnv, callMustConnGRPC, mustMapEnv, mustConnGRPC, emit, halt, e0] at hmem
  by_cases e1 : w.getenv "CURRENCY_SERVICE_ADDR" = ""
  · simp [main, mainBody, bind, Prog.bind, callMustMapEnv, callMustConnGRPC, mustMapEnv, mustConnGRPC, emit, halt, e0, e1] at hmem
  by_cases e2 : w.getenv "CART_SERVICE_ADDR" = ""
  · simp [main, mainBody, bind, Prog.bind, callMustMapEnv, callMustConnGRPC, mustMapEnv, mustConnGRPC, emit, halt, e0, e1, e2] at hmem
  by_cases e3 : w.getenv "RECOMMENDATION_SERVICE_ADDR" = ""
  · simp [main, mainBody, bind, Prog.bind, callMustMapEnv, callMustConnGRPC, mustMapEnv, mustConnGRPC, emit, halt, e0, e1, e2, e3] at hmem
  by_cases e4 : w.getenv "CHECKOUT_SERVICE_ADDR" = ""
  · simp [main, mainBody, bind, Prog.bind, callMustMapEnv, callMustConnGRPC, mustMapEnv, mustConnGRPC, emit, halt, e0, e1, e2, e3, e4] at hmem
  by_cases e5 : w.getenv "SHIPPING_SERVICE_ADDR" = ""
  · simp [main, mainBody, bind, Prog.bind, callMustMapEnv, callMustConnGRPC, mustMapEnv, mustConnGRPC, emit, halt, e0, e1, e2, e3, e4, e5] at hmem
  by_cases e6 : w.getenv "AD_SERVICE_ADDR" = ""
  · simp [main, mainBody, bind, Prog.bind, callMustMapEnv, callMustConnGRPC, mustMapEnv, mustConnGRPC, emit, halt, e0, e1, e2, e3, e4, e5, e6] at hmem
  rcases d0 : (w.dialContext 0 (w.getenv "CURRENCY_SERVICE_ADDR")).err with _ | err
  swap
  · simp [main, mainBody, bind, Prog.bind, callMustMapEnv, callMustConnGRPC, mustMapEnv, mustConnGRPC, emit, halt, e0, e1, e2, e3, e4, e5, e6, d0] at hmem
    obtain ⟨rfl, rfl⟩ := hmem
    simp [main, mainBody, bind, Prog.bind, callMustMapEnv, callMustConnGRPC, mustMapEnv, mustConnGRPC, emit, halt, e0, e1, e2, e3, e4, e5, e6, d0, wrapfError, Effect.isListen]
  rcases d1 : (w.dialContext 1 (w.getenv "PRODUCT_CATALOG_SERVICE_ADDR")).err with _ | err
  swap
  · simp [main, mainBody, bind, Prog.bind, callMustMapEnv, callMustConnGRPC, mustMapEnv, mustConnGRPC, emit, halt, e0, e1, e2, e3, e4, e5, e6, d0, d1] at hmem
    obtain ⟨rfl, rfl⟩ := hmem
    simp [main, mainBody, bind, Prog.bind, callMustMapEnv, callMustConnGRPC, mustMapEnv, mustConnGRPC, emit, halt, e0, e1, e2, e3, e4, e5, e6, d0, d1, wrapfError, Effect.isListen]
  rcases d2 : (w.dialContext 2 (w.getenv "CART_SERVICE_ADDR")).err with _ | err
  swap
  · simp [main, mainBody, bind, Prog.bind, callMustMapEnv, callMustConnGRPC, mustMapEnv, mustConnGRPC, emit, halt, e0, e1, e2, e3, e4, e5, e6, d0, d1, d2] at hmem
    obtain ⟨rfl, rfl⟩ := hmem
    simp [main, mainBody, bind, Prog.bind, callMustMapEnv, callMustConnGRPC, mustMapEnv, mustConnGRPC, emit, halt, e0, e1, e2, e3, e4, e5, e6, d0, d1, d2, wrapfError, Effect.isListen]
  rcases d3 : (w.dialContext 3 (w.getenv "RECOMMENDATION_SERVICE_ADDR")).err with _ | err
  swap
  · simp [main, mainBody, bind, Prog.bind, callMustMapEnv, callMustConnGRPC, mustMapEnv, mustConnGRPC, emit, halt, e0, e1, e2, e3, e4, e5, e6, d0, d1, d2, d3] at hmem
    obtain ⟨rfl, rfl⟩ := hmem
    simp [main, mainBody, bind, Prog.bind, callMustMapEnv, callMustConnGRPC, mustMapEnv, mustConnGRPC, emit, halt, e0, e1, e2, e3, e4, e5, e6, d0, d1, d2, d3, wrapfError, Effect.isListen]
  rcases d4 : (w.dialContext 4 (w.getenv "SHIPPING_SERVICE_ADDR")).err with _ | err
  swap
  · simp [main, mainBody, bind, Prog.bind, callMustMapEnv, callMustConnGRPC, mustMapEnv, mustConnGRPC, emit, halt, e0, e1, e2, e3, e4, e5, e6, d0, d1, d2, d3, d4] at hmem
    obtain ⟨rfl, rfl⟩ := hmem
    simp [main, mainBody, bind, Prog.bind, callMustMapEnv, callMustConnGRPC, mustMapEnv, mustConnGRPC, emit, halt, e0, e1, e2, e3, e4, e5, e6, d0, d1, d2, d3, d4, wrapfError, Effect.isListen]
  rcases d5 : (w.dialContext 5 (w.getenv "CHECKOUT_SERVICE_ADDR")).err with _ | err
  swap
  · simp [main, mainBody, bind, Prog.bind, callMustMapEnv, callMustConnGRPC, mustMapEnv, mustConnGRPC, emit, halt, e0, e1, e2, e3, e4, e5, e6, d0, d1, d2, d3, d4, d5] at hmem
    obtain ⟨rfl, rfl⟩ := hmem
    simp [main, mainBody, bind, Prog.bind, callMustMapEnv, callMustConnGRPC, mustMapEnv, mustConnGRPC, emit, halt, e0, e1, e2, e3, e4, e5, e6, d0, d1, d2, d3, d4, d5, wrapfError, Effect.isListen]
  rcases d6 : (w.dialContext 6 (w.getenv "AD_SERVICE_ADDR")).err with _ | err
  swap
  · simp [main, mainBody, bind, Prog.bind, callMustMapEnv, callMustConnGRPC, mustMapEnv, mustConnGRPC, emit, halt, e0, e1, e2, e3, e4, e5, e6, d0, d1, d2, d3, d4, d5, d6] at hmem
    obtain ⟨rfl, rfl⟩ := hmem
    simp [main, mainBody, bind, Prog.bind, callMustMapEnv, callMustConnGRPC, mustMapEnv, mustConnGRPC, emit, halt, e0, e1, e2, e3, e4, e5, e6, d0, d1, d2, d3, d4, d5, d6, wrapfError, Effect.isListen]
  exfalso
  cases hn : w.newApplication <;> cases hl : w.listenAndServe <;>
    simp [main, mainBody, bind, Prog.bind, callMustMapEnv, callMustConnGRPC, mustMapEnv, mustConnGRPC, emit, halt, e0, e1, e2, e3, e4, e5, e6, d0, d1, d2, d3, d4, d5, d6, hn, hl] at hmem

/-- When the seven variables are set and one of the seven dials returns an error, the
run records a failed dial for the address of one of the seven variables. -/
theorem main_dial_fails (w : World) (henv : ∀ k ∈ requiredEnv, w.getenv k ≠ "")
    (hfail : ¬ DialsSucceed w) :
    ∃ k ∈ requiredEnv, ∃ cause, Effect.dial (w.getenv k) (some cause) ∈ (main w).trace := by
  simp only [requiredEnv, List.forall_mem_cons, List.not_mem_nil, forall_false, implies_true,
    and_true] at henv
  obtain ⟨e0, e1, e2, e3, e4, e5, e6⟩ := henv
  rcases d0 : (w.dialContext 0 (w.getenv "CURRENCY_SERVICE_ADDR")).err with _ | err
  swap
  · exact ⟨"CURRENCY_SERVICE_ADDR", by simp [requiredEnv], err,
      by simp [main, mainBody, bind, Prog.bind, callMustMapEnv, callMustConnGRPC, mustMapEnv, mustConnGRPC, emit, halt, e0, e1, e2, e3, e4, e5, e6, d0]⟩
  rcases d1 : (w.dialContext 1 (w.getenv "PRODUCT_CATALOG_SERVICE_ADDR")).err with _ | err
  swap
  · exact ⟨"PRODUCT_CATALOG_SERVICE_ADDR", by simp [requiredEnv], err,
      by simp [main, mainBody, bind, Prog.bind, callMustMapEnv, callMustConnGRPC, mustMapEnv, mustConnGRPC, emit, halt, e0, e1, e2, e3, e4, e5, e6, d0, d1]⟩
  rcases d2 : (w.dialContext 2 (w.getenv "CART_SERVICE_ADDR")).err with _ | err
  swap
  · exact ⟨"CART_SERVICE_ADDR", by simp [requiredEnv], err,
      by simp [main, mainBody, bind, Prog.bind, callMustMapEnv, callMustConnGRPC, mustMapEnv, mustConnGRPC, emit, halt, e0, e1, e2, e3, e4, e5, e6, d0, d1, d2]⟩
  rcases d3 : (w.dialContext 3 (w.getenv "RECOMMENDATION_SERVICE_ADDR")).err with _ | err
  swap
  · exact ⟨"RECOMMENDATION_SERVICE_ADDR", by simp [requiredEnv], err,
      by simp [main, mainBody, bind, Prog.bind, callMustMapEnv, callMustConnGRPC, mustMapEnv, mustConnGRPC, emit, halt, e0, e1, e2, e3, e4, e5, e6, d0, d1, d2, d3]⟩
  rcases d4 : (w.dialContext 4 (w.getenv "SHIPPING_SERVICE_ADDR")).err with _ | err
  swap
  · exact ⟨"SHIPPING_SERVICE_ADDR", by simp [requiredEnv], err,
      by simp [main, mainBody, bind, Prog.bind, callMustMapEnv, callMustConnGRPC, mustMapEnv, mustConnGRPC, emit, halt, e0, e1, e2, e3, e4, e5, e6, d0, d1, d2, d3, d4]⟩
  rcases d5 : (w.dialContext 5 (w.getenv "CHECKOUT_SERVICE_ADDR")).err with _ | err
  swap
  · exact ⟨"CHECKOUT_SERVICE_ADDR", by simp [requiredEnv], err,
      by simp [main, mainBody, bind, Prog.bind, callMustMapEnv, callMustConnGRPC, mustMapEnv, mustConnGRPC, emit, halt, e0, e1, e2, e3, e4, e5, e6, d0, d1, d2, d3, d4, d5]⟩
  rcases d6 : (w.dialContext 6 (w.getenv "AD_SERVICE_ADDR")).err with _ | err
  swap
  · exact ⟨"AD_SERVICE_ADDR", by simp [requiredEnv], err,
      by simp [main, mainBody, bind, Prog.bind, callMustMapEnv, callMustConnGRPC, mustMapEnv, mustConnGRPC, emit, halt, e0, e1, e2, e3, e4, e5, e6, d0, d1, d2, d3, d4, d5, d6]⟩
  exact absurd ⟨d0, d1, d2, d3, d4, d5, d6⟩ hfail

/-! ## Lemmas on routing -/

/-- The route table after the registrations of `main`, written out. -/
theorem registerRoutes_eq : registerRoutes NewRouter = ⟨[
    ⟨[Matcher.path "/", Matcher.methods ["GET", "HEAD"]],
      some (RouteHandler.newrelicWrapped "/" SvcHandler.homeHandler)⟩,
    ⟨[Matcher.path "/product/{id}", Matcher.methods ["GET", "HEAD"]],
      some (RouteHandler.newrelicWrapped "/product/{id}" SvcHandler.productHandler)⟩,
    ⟨[Matcher.path "/cart", Matcher.methods ["GET", "HEAD"]],
      some (RouteHandler.newrelicWrapped "/cart" SvcHandler.viewCartHandler)⟩,
    ⟨[Matcher.path "/cart", Matcher.methods ["POST"]],
      some (RouteHandler.newrelicWrapped "/cart" SvcHandler.addToCartHandler)⟩,
    ⟨[Matcher.path "/cart/empty", Matcher.methods ["POST"]],
      some (RouteHandler.newrelicWrapped "/cart/empty" SvcHandler.emptyCartHandler)⟩,
    ⟨[Matcher.path "/setCurrency", Matcher.methods ["POST"]],
      some (RouteHandler.newrelicWrapped "/setCurrency" SvcHandler.setCurrencyHandler)⟩,
    ⟨[Matcher.path "/logout", Matcher.methods ["GET"]],
      some (RouteHandler.newrelicWrapped "/logout" SvcHandler.logoutHandler)⟩,
    ⟨[Matcher.path "/cart/checkout", Matcher.methods ["POST"]],
      some (RouteHandler.newrelicWrapped "/cart/checkout" SvcHandler.placeOrderHandler)⟩,
    ⟨[Matcher.pathStart "/static/"], some RouteHandler.staticFiles⟩,
    ⟨[Matcher.path "/robots.txt"], some RouteHandler.robotsTxt⟩,
    ⟨[Matcher.path "/_healthz"], some RouteHandler.healthz⟩]⟩ := by
  decide

theorem matchLoop_some_none (req : Request) (ms : List Matcher) (e : Option MatchErr)
    (h : Route.matchLoop req ms e = some none) :
    e = none ∧ ∀ m ∈ ms, m.Match req = true := by
  induction ms generalizing e with
  | nil => simpa [Route.matchLoop] using h
  | cons m ms ih =>
    unfold Route.matchLoop at h
    by_cases hm : m.Match req = true
    · rw [if_pos hm] at h
      obtain ⟨he, hall⟩ := ih e h
      refine ⟨he, ?_⟩
      intro x hx
      rcases List.mem_cons.mp hx with rfl | hx
      · exact hm
      · exact hall x hx
    · rw [if_neg hm] at h
      by_cases hk : m.isMethods = true
      · rw [if_pos hk] at h
        exact absurd (ih _ h).1 (by simp)
      · rw [if_neg hk] at h
        exact absurd h (by simp)

/-- A route that matches, entered with no handler chosen yet, chooses its own
handler, and all its matchers accept the request. -/
theorem Route.Match_true (rt : Route) (req : Request) (mt : RouteMatch)
    (hH : mt.Handler = none) (h : (rt.Match req mt).1 = true) :
    (rt.Match req mt).2.Handler = rt.handler ∧ ∀ m ∈ rt.matchers, m.Match req = true := by
  unfold Route.Match at h ⊢
  rcases hl : Route.matchLoop req rt.matchers none with _ | (_ | e)
  · simp [hl] at h
  · refine ⟨?_, (matchLoop_some_none req rt.matchers none hl).2⟩
    simp only [hl]
    by_cases hc : mt.MatchErr = some MatchErr.ErrMethodMismatch ∧ rt.handler.isSome = true
    · rcases hh : rt.handler with _ | f
      · simp [hh] at hc
      · simp [hc.1, hh]
    · simp [hc, hH]
  · simp [hl] at h

/-- A route that does not match leaves the chosen handler as it was. -/
theorem Route.Match_false (rt : Route) (req : Request) (mt : RouteMatch)
    (h : (rt.Match req mt).1 = false) :
    (rt.Match req mt).2.Handler = mt.Handler := by
  unfold Route.Match at h ⊢
  rcases hl : Route.matchLoop req rt.matchers none with _ | (_ | e)
  · by_cases hc : mt.MatchErr = some MatchErr.ErrNotFound <;> simp [hc]
  · simp [hl] at h
  · simp

theorem matchRoutes_true (req : Request) (routes : List Route) (mt : RouteMatch)
    (hH : mt.Handler = none) (h : (Router.matchRoutes req routes mt).1 = true) :
    ∃ rt ∈ routes, (Router.matchRoutes req routes mt).2.Handler = rt.handler ∧
      ∀ m ∈ rt.matchers, m.Match req = true := by
  induction routes generalizing mt with
  | nil =>
    unfold Router.matchRoutes at h
    by_cases hc : mt.MatchErr = some MatchErr.ErrMethodMismatch <;> simp [hc] at h
  | cons rt rest ih =>
    unfold Router.matchRoutes at h ⊢
    by_cases hr : (rt.Match req mt).1 = true
    · simp only [hr, if_true] at h ⊢
      exact ⟨rt, List.mem_cons_self rt rest, Route.Match_true rt req mt hH hr⟩
    · simp only [hr] at h ⊢
      have hf : (rt.Match req mt).1 = false := by simpa using hr
      have hH2 : (rt.Match req mt).2.Handler = none := by
        rw [Route.Match_false rt req mt hf]; exact hH
      obtain ⟨rt2, hmem, h2⟩ := ih (rt.Match req mt).2 hH2 h
      exact ⟨rt2, List.mem_cons_of_mem rt hmem, h2⟩

/-- Among the routes, a handler is chosen only through a route that carries it and
whose matchers all accept the request. -/
theorem choose_handler (r : Router) (req : Request) (f : RouteHandler)
    (hd : r.choose req = Dispatch.handler f) :
    ∃ rt ∈ r.routes, rt.handler = some f ∧ ∀ m ∈ rt.matchers, m.Match req = true := by
  unfold Router.choose at hd
  by_cases h1 : (Router.matchRoutes req r.routes ⟨none, none⟩).1 = true
  · obtain ⟨rt, hmem, hh, hall⟩ := matchRoutes_true req r.routes ⟨none, none⟩ rfl h1
    refine ⟨rt, hmem, ?_, hall⟩
    rw [← hh]
    simp only [h1, if_true] at hd
    rcases hq : (Router.matchRoutes req r.routes ⟨none, none⟩).2.Handler with _ | g
    · rw [hq] at hd
      by_cases hc : (Router.matchRoutes req r.routes ⟨none, none⟩).2.MatchErr =
          some MatchErr.ErrMethodMismatch <;> simp [hc] at hd
    · rw [hq] at hd
      simp at hd
      rw [hd]
  · simp only [h1] at hd
    by_cases hc : (Router.matchRoutes req r.routes ⟨none, none⟩).2.MatchErr =
        some MatchErr.ErrMethodMismatch <;> simp [hc] at hd

/-- A request reaches a handler only if its path is clean, through a route that
carries this handler and whose matchers all accept the request. -/
theorem dispatch_handler (r : Router) (req : Request) (f : RouteHandler)
    (hd : r.dispatch req = Dispatch.handler f) :
    cleanPath req.Path = req.Path ∧
    ∃ rt ∈ r.routes, rt.handler = some f ∧ ∀ m ∈ rt.matchers, m.Match req = true := by
  unfold Router.dispatch at hd
  by_cases hc : cleanPath req.Path = req.Path
  · rw [if_neg (not_not.mpr hc)] at hd
    exact ⟨hc, choose_handler r req f hd⟩
  · rw [if_pos hc] at hd
    exact absurd hd (by simp)

/-- A request whose path is clean is dispatched among the routes. -/
theorem dispatch_clean (r : Router) (req : Request) (hc : cleanPath req.Path = req.Path) :
    r.dispatch req = r.choose req := by
  unfold Router.dispatch
  rw [if_neg (not_not.mpr hc)]

/-! ## Constants and the whitelist -/

/-- C9: `cookieMaxAge` is 48 hours in seconds, 48 * 3600 = 172800, and
`cookieSessionID` is the prefix `shop_` followed by `session-id`. -/
theorem cookie_constants :
    cookieMaxAge = 48 * 3600 ∧ cookieMaxAge = 172800 ∧
    cookiePrefix = "shop_" ∧ cookieSessionID = cookiePrefix ++ "session-id" ∧
    cookieSessionID = "shop_session-id" := by
  refine ⟨by decide, by decide, rfl, rfl, by decide⟩

/-- C1: the whitelist lookup is true exactly on the six codes USD, EUR, CAD, JPY,
GBP and TRY; it is false on `XXX`, on the empty string and on lowercase `usd`. -/
theorem whitelistedCurrencies_index :
    (∀ code : String, whitelistedCurrencies.index code = true ↔
      code ∈ ["USD", "EUR", "CAD", "JPY", "GBP", "TRY"]) ∧
    whitelistedCurrencies.index "XXX" = false ∧
    whitelistedCurrencies.index "" = false ∧
    whitelistedCurrencies.index "usd" = false := by
  refine ⟨?_, by decide, by decide, by decide⟩
  intro code
  unfold GoMap.index whitelistedCurrencies
  by_cases h1 : code = "USD"
  · subst h1; simp [List.lookup]
  by_cases h2 : code = "EUR"
  · subst h2; simp [List.lookup]
  by_cases h3 : code = "CAD"
  · subst h3; simp [List.lookup]
  by_cases h4 : code = "JPY"
  · subst h4; simp [List.lookup]
  by_cases h5 : code = "GBP"
  · subst h5; simp [List.lookup]
  by_cases h6 : code = "TRY"
  · subst h6; simp [List.lookup]
  have b1 : (code == "USD") = false := beq_eq_false_iff_ne.mpr h1
  have b2 : (code == "EUR") = false := beq_eq_false_iff_ne.mpr h2
  have b3 : (code == "CAD") = false := beq_eq_false_iff_ne.mpr h3
  have b4 : (code == "JPY") = false := beq_eq_false_iff_ne.mpr h4
  have b5 : (code == "GBP") = false := beq_eq_false_iff_ne.mpr h5
  have b6 : (code == "TRY") = false := beq_eq_false_iff_ne.mpr h6
  simp [List.lookup, h1, h2, h3, h4, h5, h6, b1, b2, b3, b4, b5, b6]

/-! ## `mustMapEnv` -/

/-- C5, as the code has it: `mustMapEnv` panics exactly when the variable is empty;
the panic value is `environment variable <q> not set` with `<q>` the `%q` rendering
of `envKey`, the target keeps its value, and the message contains `envKey` itself
whenever `envKey` has only printable runes other than the quote and the backslash;
when it does not panic the target holds the value of the variable. -/
theorem mustMapEnv_spec (w : World) (target envKey : String) :
    ((mustMapEnv w target envKey).panicked ≠ none ↔ w.getenv envKey = "") ∧
    (w.getenv envKey = "" →
      (mustMapEnv w target envKey).panicked =
        some ("environment variable " ++ strconvQuote w.printable envKey ++ " not set") ∧
      (mustMapEnv w target envKey).mem = target ∧
      ((∀ c ∈ envKey.data, c ≠ '"' ∧ c ≠ '\\' ∧ isPrint w.printable c = true) →
        ∃ msg, (mustMapEnv w target envKey).panicked = some msg ∧ Contains msg envKey)) ∧
    (w.getenv envKey ≠ "" →
      (mustMapEnv w target envKey).panicked = none ∧
      (mustMapEnv w target envKey).mem = w.getenv envKey) := by
  by_cases h : w.getenv envKey = ""
  · refine ⟨by simp [mustMapEnv, h], fun _ => ⟨by simp [mustMapEnv, h], by simp [mustMapEnv, h], ?_⟩,
      fun hne => absurd h hne⟩
    intro hplain
    refine ⟨"environment variable " ++ strconvQuote w.printable envKey ++ " not set",
      by simp [mustMapEnv, h], ?_⟩
    rw [strconvQuote_plain w.printable envKey hplain]
    have hc := contains_middle "environment variable \"" envKey "\" not set"
    have e : "environment variable " ++ ("\"" ++ envKey ++ "\"") ++ " not set"
        = "environment variable \"" ++ envKey ++ "\" not set" := by
      apply String.ext
      simp [String.data_append]
    rw [e]
    exact hc
  · refine ⟨by simp [mustMapEnv, h], fun he => absurd he h, fun _ => ?_⟩
    simp [mustMapEnv, h]

/-- C5 at a concrete input: with `AD_SERVICE_ADDR` unset the panic value names it and
the target keeps its old value; with it set, the target takes the value. -/
theorem mustMapEnv_spec_witness :
    (mustMapEnv emptyWorld "old" "AD_SERVICE_ADDR").panicked =
      some "environment variable \"AD_SERVICE_ADDR\" not set" ∧
    (mustMapEnv emptyWorld "old" "AD_SERVICE_ADDR").mem = "old" ∧
    (∃ msg, (mustMapEnv emptyWorld "old" "AD_SERVICE_ADDR").panicked = some msg ∧
      Contains msg "AD_SERVICE_ADDR") ∧
    (mustMapEnv goodWorld "old" "AD_SERVICE_ADDR").mem = "AD_SERVICE_ADDR:443" := by
  have h1 := (mustMapEnv_spec emptyWorld "old" "AD_SERVICE_ADDR").2.1 rfl
  have h2 := (mustMapEnv_spec goodWorld "old" "AD_SERVICE_ADDR").2.2 (by decide)
  exact ⟨by decide, h1.2.1, h1.2.2 (by decide), h2.2⟩

/-- C5 as stated fails: for the key `a"b`, unset, the panic value is
`environment variable "a\"b" not set`, which does not contain `a"b`. -/
theorem mustMapEnv_message_omits_key :
    emptyWorld.getenv "a\"b" = "" ∧
    (mustMapEnv emptyWorld "" "a\"b").panicked =
      some "environment variable \"a\\\"b\" not set" ∧
    ¬ Contains "environment variable \"a\\\"b\" not set" "a\"b" := by
  refine ⟨rfl, by decide, by decide⟩

/-! ## Routing -/

/-- C7, as the code has it: `main` registers eleven routes. Eight carry a path and a
method list: GET/HEAD `/`, GET/HEAD `/product/{id}`, GET/HEAD `/cart`, POST `/cart`,
POST `/cart/empty`, POST `/setCurrency`, GET `/logout`, POST `/cart/checkout`; a
request reaches the handler of one of them only with a clean path that matches and a
listed method. The path prefix `/static/`, `/robots.txt` and `/_healthz` carry no
method list: `/robots.txt`, `/_healthz` and every clean path under `/static/` are
served for every method. A request whose path is not clean is answered by a redirect
to the clean path and reaches no handler. -/
theorem route_table_dispatch :
    registerRoutes NewRouter = ⟨[
      ⟨[Matcher.path "/", Matcher.methods ["GET", "HEAD"]],
        some (RouteHandler.newrelicWrapped "/" SvcHandler.homeHandler)⟩,
      ⟨[Matcher.path "/product/{id}", Matcher.methods ["GET", "HEAD"]],
        some (RouteHandler.newrelicWrapped "/product/{id}" SvcHandler.productHandler)⟩,
      ⟨[Matcher.path "/cart", Matcher.methods ["GET", "HEAD"]],
        some (RouteHandler.newrelicWrapped "/cart" SvcHandler.viewCartHandler)⟩,
      ⟨[Matcher.path "/cart", Matcher.methods ["POST"]],
        some (RouteHandler.newrelicWrapped "/cart" SvcHandler.addToCartHandler)⟩,
      ⟨[Matcher.path "/cart/empty", Matcher.methods ["POST"]],
        some (RouteHandler.newrelicWrapped "/cart/empty" SvcHandler.emptyCartHandler)⟩,
      ⟨[Matcher.path "/setCurrency", Matcher.methods ["POST"]],
        some (RouteHandler.newrelicWrapped "/setCurrency" SvcHandler.setCurrencyHandler)⟩,
      ⟨[Matcher.path "/logout", Matcher.methods ["GET"]],
        some (RouteHandler.newrelicWrapped "/logout" SvcHandler.logoutHandler)⟩,
      ⟨[Matcher.path "/cart/checkout", Matcher.methods ["POST"]],
        some (RouteHandler.newrelicWrapped "/cart/checkout" SvcHandler.placeOrderHandler)⟩,
      ⟨[Matcher.pathStart "/static/"], some RouteHandler.staticFiles⟩,
      ⟨[Matcher.path "/robots.txt"], some RouteHandler.robotsTxt⟩,
      ⟨[Matcher.path "/_healthz"], some RouteHandler.healthz⟩]⟩ ∧
    (∀ (w : World) (a : String) (h : Handler), Effect.listenAndServe a h ∈ (main w).trace →
      h = Handler.ensureSessionID
        (Handler.logHandler (Handler.router (registerRoutes NewRouter)))) ∧
    (∀ (req : Request) (pat : String) (f : SvcHandler),
      (registerRoutes NewRouter).dispatch req =
        Dispatch.handler (RouteHandler.newrelicWrapped pat f) →
      cleanPath req.Path = req.Path ∧
      ∃ ms, (pat, ms, f) ∈
          [("/", ["GET", "HEAD"], SvcHandler.homeHandler),
           ("/product/{id}", ["GET", "HEAD"], SvcHandler.productHandler),
           ("/cart", ["GET", "HEAD"], SvcHandler.viewCartHandler),
           ("/cart", ["POST"], SvcHandler.addToCartHandler),
           ("/cart/empty", ["POST"], SvcHandler.emptyCartHandler),
           ("/setCurrency", ["POST"], SvcHandler.setCurrencyHandler),
           ("/logout", ["GET"], SvcHandler.logoutHandler),
           ("/cart/checkout", ["POST"], SvcHandler.placeOrderHandler)] ∧
        req.Method ∈ ms ∧ (Matcher.path pat).Match req = true) ∧
    (∀ m : String, (registerRoutes NewRouter).dispatch ⟨m, "/_healthz"⟩ =
      Dispatch.handler RouteHandler.healthz) ∧
    (∀ m : String, (registerRoutes NewRouter).dispatch ⟨m, "/robots.txt"⟩ =
      Dispatch.handler RouteHandler.robotsTxt) ∧
    (∀ m rest : String, cleanPath ("/static/" ++ rest) = "/static/" ++ rest →
      (registerRoutes NewRouter).dispatch ⟨m, "/static/" ++ rest⟩ =
        Dispatch.handler RouteHandler.staticFiles) ∧
    (∀ req : Request, cleanPath req.Path ≠ req.Path →
      (registerRoutes NewRouter).dispatch req = Dispatch.redirect (cleanPath req.Path)) ∧
    (registerRoutes NewRouter).dispatch ⟨"GET", "/static/a//b"⟩ =
      Dispatch.redirect "/static/a/b" ∧
    (registerRoutes NewRouter).dispatch ⟨"GET", "/static/../cart"⟩ =
      Dispatch.redirect "/cart" ∧
    (registerRoutes NewRouter).dispatch ⟨"PUT", "/cart"⟩ = Dispatch.methodNotAllowed ∧
    (registerRoutes NewRouter).dispatch ⟨"POST", "/logout"⟩ = Dispatch.methodNotAllowed := by
  refine ⟨registerRoutes_eq, fun w a h hmem => (listen_mem_trace w a h hmem).2.2.2.2, ?_, ?_, ?_,
    ?_, ?_, by decide, by decide, by decide, by decide⟩
  · intro req pat f hd
    obtain ⟨hclean, rt, hmem, hh, hall⟩ := dispatch_handler _ req _ hd
    refine ⟨hclean, ?_⟩
    rw [registerRoutes_eq] at hmem
    simp only [List.mem_cons, List.mem_singleton, List.not_mem_nil, or_false] at hmem
    rcases hmem with rfl | rfl | rfl | rfl | rfl | rfl | rfl | rfl | rfl | rfl | rfl <;>
      simp only [Option.some.injEq, RouteHandler.newrelicWrapped.injEq, reduceCtorEq] at hh
    all_goals
      obtain ⟨rfl, rfl⟩ := hh
      have hp := hall _ (List.mem_cons_self _ _)
      have hm := List.mem_of_elem_eq_true
        (hall _ (List.mem_cons_of_mem _ (List.mem_cons_self _ _)))
      exact ⟨_, by simp, hm, hp⟩
  · intro m
    have hc : cleanPath "/_healthz" = "/_healthz" := by decide
    rw [dispatch_clean _ ⟨m, "/_healthz"⟩ hc, registerRoutes_eq]
    simp +decide [Router.choose, Router.matchRoutes, Route.Match, Route.matchLoop,
      Matcher.Match, Matcher.isMethods]
  · intro m
    have hc : cleanPath "/robots.txt" = "/robots.txt" := by decide
    rw [dispatch_clean _ ⟨m, "/robots.txt"⟩ hc, registerRoutes_eq]
    simp +decide [Router.choose, Router.matchRoutes, Route.Match, Route.matchLoop,
      Matcher.Match, Matcher.isMethods]
  · intro m rest hclean
    rw [dispatch_clean _ _ hclean, registerRoutes_eq]
    simp +decide [Router.choose, Router.matchRoutes, Route.Match, Route.matchLoop,
      Matcher.Match, Matcher.isMethods, parseTemplate, matchSegs]
  · intro req hne
    unfold Router.dispatch
    rw [if_pos hne]

/-- C7 at concrete requests: `GET /product/OLJCESPC7Z` reaches the product handler
through a route that lists GET, and `DELETE /static/styles/cart.css`, a clean path
under the static prefix, reaches the file server. -/
theorem route_table_dispatch_witness :
    (registerRoutes NewRouter).dispatch ⟨"GET", "/product/OLJCESPC7Z"⟩ =
      Dispatch.handler (RouteHandler.newrelicWrapped "/product/{id}" SvcHandler.productHandler) ∧
    (cleanPath "/product/OLJCESPC7Z" = "/product/OLJCESPC7Z" ∧
     ∃ ms, ("/product/{id}", ms, SvcHandler.productHandler) ∈
        [("/", ["GET", "HEAD"], SvcHandler.homeHandler),
         ("/product/{id}", ["GET", "HEAD"], SvcHandler.productHandler),
         ("/cart", ["GET", "HEAD"], SvcHandler.viewCartHandler),
         ("/cart", ["POST"], SvcHandler.addToCartHandler),
         ("/cart/empty", ["POST"], SvcHandler.emptyCartHandler),
         ("/setCurrency", ["POST"], SvcHandler.setCurrencyHandler),
         ("/logout", ["GET"], SvcHandler.logoutHandler),
         ("/cart/checkout", ["POST"], SvcHandler.placeOrderHandler)] ∧
      "GET" ∈ ms ∧
      (Matcher.path "/product/{id}").Match ⟨"GET", "/product/OLJCESPC7Z"⟩ = true) ∧
    cleanPath ("/static/" ++ "styles/cart.css") = "/static/" ++ "styles/cart.css" ∧
    (registerRoutes NewRouter).dispatch ⟨"DELETE", "/static/" ++ "styles/cart.css"⟩ =
      Dispatch.handler RouteHandler.staticFiles ∧
    cleanPath "/static//styles/cart.css" ≠ "/static//styles/cart.css" ∧
    (registerRoutes NewRouter).dispatch ⟨"DELETE", "/static//styles/cart.css"⟩ =
      Dispatch.redirect (cleanPath "/static//styles/cart.css") :=
  ⟨by decide,
   route_table_dispatch.2.2.1 ⟨"GET", "/product/OLJCESPC7Z"⟩ "/product/{id}"
     SvcHandler.productHandler (by decide),
   by decide,
   route_table_dispatch.2.2.2.2.2.1 "DELETE" "styles/cart.css" (by decide),
   by decide,
   route_table_dispatch.2.2.2.2.2.2.1 ⟨"DELETE", "/static//styles/cart.css"⟩ (by decide)⟩

/-- C7 as stated fails: `POST /_healthz` and `POST /robots.txt` are dispatched to the
handlers of these routes, which carry no method list. -/
theorem post_healthz_is_dispatched :
    (registerRoutes NewRouter).dispatch ⟨"POST", "/_healthz"⟩ =
      Dispatch.handler RouteHandler.healthz ∧
    (registerRoutes NewRouter).dispatch ⟨"POST", "/robots.txt"⟩ =
      Dispatch.handler RouteHandler.robotsTxt ∧
    (registerRoutes NewRouter).dispatch ⟨"POST", "/static/img.png"⟩ =
      Dispatch.handler RouteHandler.staticFiles := by
  refine ⟨by decide, by decide, by decide⟩

/-- C8: for every server state and every GET request to `/_healthz`, the router
dispatches to the health handler, which writes the body `ok` with status 200 on a
fresh response and uses no upstream channel; the outcome is the same for any two
server states and whatever the other handlers do. -/
theorem healthz_ok (ext : External) (svc : frontendServer) (req : Request)
    (hm : req.Method = "GET") (hp : req.Path = "/_healthz") :
    (registerRoutes NewRouter).dispatch req = Dispatch.handler RouteHandler.healthz ∧
    Router.ServeHTTP ext svc (registerRoutes NewRouter) req ResponseWriter.fresh =
      ⟨⟨some 200, "ok"⟩, []⟩ ∧
    (∀ (ext2 : External) (svc2 : frontendServer),
      Router.ServeHTTP ext2 svc2 (registerRoutes NewRouter) req ResponseWriter.fresh =
        Router.ServeHTTP ext svc (registerRoutes NewRouter) req ResponseWriter.fresh) := by
  obtain ⟨m, p⟩ := req
  simp only at hm hp
  subst hm hp
  have hd : (registerRoutes NewRouter).dispatch ⟨"GET", "/_healthz"⟩ =
      Dispatch.handler RouteHandler.healthz := by decide
  have hs : ∀ (e : External) (s : frontendServer),
      Router.ServeHTTP e s (registerRoutes NewRouter) ⟨"GET", "/_healthz"⟩ ResponseWriter.fresh =
        ⟨⟨some 200, "ok"⟩, []⟩ := by
    intro e s
    simp only [Router.ServeHTTP, hd, RouteHandler.ServeHTTP]
    decide
  exact ⟨hd, hs ext svc, fun e2 s2 => by rw [hs e2 s2, hs ext svc]⟩

/-- C8 at a concrete input: the empty server state and handlers that would answer
500 after calling the cart service. -/
theorem healthz_ok_witness :
    Router.ServeHTTP (fun _ _ _ _ => ⟨⟨some 500, "down"⟩, [Backend.cart]⟩) {}
      (registerRoutes NewRouter) ⟨"GET", "/_healthz"⟩ ResponseWriter.fresh =
      ⟨⟨some 200, "ok"⟩, []⟩ :=
  (healthz_ok (fun _ _ _ _ => ⟨⟨some 500, "down"⟩, [Backend.cart]⟩) {}
    ⟨"GET", "/_healthz"⟩ rfl rfl).2.1

/-! ## The middleware chain -/

/-- C2, as the code has it: the handler `main` passes to the listener has the session
middleware outermost, wrapping the logging middleware, wrapping the router; a request
enters `ensureSessionID`, then `logHandler`, then the router. -/
theorem main_handler_composition (w : World) (a : String) (h : Handler)
    (hmem : Effect.listenAndServe a h ∈ (main w).trace) :
    h = Handler.ensureSessionID (Handler.logHandler (Handler.router (registerRoutes NewRouter))) ∧
    h.entryOrder = [Layer.ensureSessionID, Layer.logHandler, Layer.router] := by
  have hh : h = servedHandler := (listen_mem_trace w a h hmem).2.2.2.2
  subst hh
  exact ⟨rfl, rfl⟩

/-- C2 at a concrete run. -/
theorem main_handler_composition_witness :
    Effect.listenAndServe ":8080" servedHandler ∈ (main goodWorld).trace ∧
    servedHandler.entryOrder = [Layer.ensureSessionID, Layer.logHandler, Layer.router] :=
  ⟨by decide, (main_handler_composition goodWorld ":8080" servedHandler (by decide)).2⟩

/-- C2 as stated fails: in a run that opens the listener, the handler passed to it is
entered at `ensureSessionID`, not at `logHandler`. -/
theorem logHandler_is_not_outermost :
    Effect.listenAndServe ":8080"
      (Handler.ensureSessionID (Handler.logHandler (Handler.router (registerRoutes NewRouter))))
      ∈ (main goodWorld).trace ∧
    (Handler.ensureSessionID
      (Handler.logHandler (Handler.router (registerRoutes NewRouter)))).entryOrder ≠
      [Layer.logHandler, Layer.ensureSessionID, Layer.router] := by
  refine ⟨by decide, by decide⟩

/-! ## Start-up -/

/-- C3: when one of the seven required variables is unset or empty, `main` ends in a
panic that reports such a variable, having made no gRPC dial and not having opened
the HTTP listener. -/
theorem main_missing_env_aborts (w : World) (hmiss : ∃ k ∈ requiredEnv, w.getenv k = "") :
    (∃ k ∈ requiredEnv, w.getenv k = "" ∧
      (main w).exit = some (Exit.panic
        ("environment variable " ++ strconvQuote w.printable k ++ " not set"))) ∧
    (∀ x ∈ (main w).trace, x.isDial = false ∧ x.isListen = false) := by
  obtain ⟨ht, hk⟩ := main_env_missing w hmiss
  refine ⟨hk, ?_⟩
  rw [ht]
  intro x hx
  exact absurd hx (List.not_mem_nil x)

/-- C3 at a concrete input: only `AD_SERVICE_ADDR` is unset. -/
theorem main_missing_env_aborts_witness :
    (∃ k ∈ requiredEnv, missingAdWorld.getenv k = "") ∧
    (main missingAdWorld).exit =
      some (Exit.panic "environment variable \"AD_SERVICE_ADDR\" not set") ∧
    (∀ x ∈ (main missingAdWorld).trace, x.isDial = false ∧ x.isListen = false) :=
  ⟨⟨"AD_SERVICE_ADDR", by decide, by decide⟩, by decide,
   (main_missing_env_aborts missingAdWorld ⟨"AD_SERVICE_ADDR", by decide, by decide⟩).2⟩

/-- C4: `mustConnGRPC` stores the dialled connection and returns when the dial gives
no error, and otherwise panics with `grpc: failed to connect <addr>: <cause>`, which
contains `addr`. In `main`, a dial that returns an error ends the run in that panic
for the dialled address without the listener being opened, and when the seven
variables are set and one of the seven dials fails such a dial is on record, for the
address held by one of the seven variables. -/
theorem mustConnGRPC_spec (w : World) (dial : String → DialResult)
    (conn : Option ClientConn) (addr : String) :
    ((dial addr).err = none →
      mustConnGRPC dial conn addr = ⟨(dial addr).conn, none⟩) ∧
    (∀ cause, (dial addr).err = some cause →
      (mustConnGRPC dial conn addr).panicked =
        some ("grpc: failed to connect " ++ addr ++ ": " ++ cause) ∧
      Contains ("grpc: failed to connect " ++ addr ++ ": " ++ cause) addr) ∧
    (∀ a cause, Effect.dial a (some cause) ∈ (main w).trace →
      (main w).exit = some (Exit.panic ("grpc: failed to connect " ++ a ++ ": " ++ cause)) ∧
      Contains ("grpc: failed to connect " ++ a ++ ": " ++ cause) a ∧
      ∀ x ∈ (main w).trace, x.isListen = false) ∧
    ((∀ k ∈ requiredEnv, w.getenv k ≠ "") → ¬ DialsSucceed w →
      ∃ k ∈ requiredEnv, ∃ cause,
        Effect.dial (w.getenv k) (some cause) ∈ (main w).trace ∧
        (main w).exit = some (Exit.panic
          ("grpc: failed to connect " ++ w.getenv k ++ ": " ++ cause)) ∧
        ∀ x ∈ (main w).trace, x.isListen = false) := by
  have hc : ∀ a cause : String, Contains ("grpc: failed to connect " ++ a ++ ": " ++ cause) a := by
    intro a cause
    have e : "grpc: failed to connect " ++ a ++ ": " ++ cause =
        "grpc: failed to connect " ++ a ++ (": " ++ cause) := by
      rw [String.append_assoc]
    rw [e]
    exact contains_middle _ _ _
  refine ⟨?_, ?_, ?_, ?_⟩
  · intro h
    simp [mustConnGRPC, h]
  · intro cause h
    exact ⟨by simp [mustConnGRPC, h, wrapfError], hc addr cause⟩
  · intro a cause hmem
    obtain ⟨h1, h2⟩ := dial_err_mem_trace w a cause hmem
    exact ⟨h1, hc a cause, h2⟩
  · intro henv hfail
    obtain ⟨k, hk, cause, hmem⟩ := main_dial_fails w henv hfail
    obtain ⟨h1, h2⟩ := dial_err_mem_trace w (w.getenv k) cause hmem
    exact ⟨k, hk, cause, hmem, h1, h2⟩

/-- C4 at a concrete input: the dial of the cart service at `cart:7070` times out. -/
theorem mustConnGRPC_spec_witness :
    (cartDownWorld.dialContext 2 "cart:7070").err = some "context deadline exceeded" ∧
    Effect.dial "cart:7070" (some "context deadline exceeded") ∈ (main cartDownWorld).trace ∧
    (main cartDownWorld).exit = some (Exit.panic
      ("grpc: failed to connect " ++ "cart:7070" ++ ": " ++ "context deadline exceeded")) ∧
    (∀ x ∈ (main cartDownWorld).trace, x.isListen = false) ∧
    (mustConnGRPC (cartDownWorld.dialContext 2) none "cart:7070").panicked =
      some ("grpc: failed to connect " ++ "cart:7070" ++ ": " ++ "context deadline exceeded") ∧
    mustConnGRPC (cartDownWorld.dialContext 0) none "cart:7070" = ⟨some ⟨900⟩, none⟩ := by
  have h := mustConnGRPC_spec cartDownWorld (cartDownWorld.dialContext 2) none "cart:7070"
  have hm := h.2.2.1 "cart:7070" "context deadline exceeded" (by decide)
  exact ⟨by decide, by decide, hm.1, hm.2.2, (h.2.1 _ (by decide)).1, by decide⟩

/-- C6: whenever `main` opens the listener, it does so on `LISTEN_ADDR`, a colon, and
`PORT` if that is non-empty and `8080` otherwise; and it opens the listener whenever
the seven required variables are set, the dials succeed and the New Relic application
is created, whatever `PORT` and `LISTEN_ADDR` hold: with both unset on `:8080`. -/
theorem main_listen_address (w : World) :
    (∀ a h, Effect.listenAndServe a h ∈ (main w).trace →
      a = w.getenv "LISTEN_ADDR" ++ ":" ++
        (if w.getenv "PORT" ≠ "" then w.getenv "PORT" else "8080")) ∧
    ((∀ k ∈ requiredEnv, w.getenv k ≠ "") → DialsSucceed w → w.newApplication = none →
      (∃ h, Effect.listenAndServe
        (w.getenv "LISTEN_ADDR" ++ ":" ++
          (if w.getenv "PORT" ≠ "" then w.getenv "PORT" else "8080")) h ∈ (main w).trace) ∧
      (w.getenv "LISTEN_ADDR" = "" → w.getenv "PORT" = "" →
        ∃ h, Effect.listenAndServe ":8080" h ∈ (main w).trace)) := by
  have hopen : (∀ k ∈ requiredEnv, w.getenv k ≠ "") → DialsSucceed w → w.newApplication = none →
      Effect.listenAndServe (listenAddress w) servedHandler ∈ (main w).trace := by
    intro henv hd hn
    rw [(main_started w henv hd).2.1, hn]
    simp
  refine ⟨?_, ?_⟩
  · intro a h hmem
    exact (listen_mem_trace w a h hmem).2.2.2.1
  · intro henv hd hn
    refine ⟨⟨servedHandler, hopen henv hd hn⟩, ?_⟩
    intro hl hp
    refine ⟨servedHandler, ?_⟩
    have h := hopen henv hd hn
    have e : listenAddress w = ":8080" := by
      simp only [listenAddress, hl, hp]
      decide
    rw [e] at h
    exact h

/-- C6 at concrete inputs: with `PORT` and `LISTEN_ADDR` unset the listener is opened
on `:8080`; with `PORT=9090` and `LISTEN_ADDR=0.0.0.0`, on `0.0.0.0:9090`. -/
theorem main_listen_address_witness :
    (∀ k ∈ requiredEnv, goodWorld.getenv k ≠ "") ∧ DialsSucceed goodWorld ∧
    (∃ h, Effect.listenAndServe ":8080" h ∈ (main goodWorld).trace) ∧
    (∀ a h, Effect.listenAndServe a h ∈ (main customPortWorld).trace →
      a = "0.0.0.0" ++ ":" ++ "9090") :=
  ⟨by decide, by decide,
   ((main_listen_address goodWorld).2 (by decide) (by decide) rfl).2 (by decide) (by decide),
   (main_listen_address customPortWorld).1⟩

/-- C10: when the seven variables are set and the seven dials succeed, `main` makes
exactly seven dials, one for the address of each role, and in the aggregate each
role's address field holds the value of that role's variable and its connection
field the connection returned by the dial of that same address. -/
theorem main_pairs_channels (w : World) (henv : ∀ k ∈ requiredEnv, w.getenv k ≠ "")
    (hd : DialsSucceed w) :
    (main w).trace.filter Effect.isDial =
      [Effect.dial (w.getenv "CURRENCY_SERVICE_ADDR") none,
       Effect.dial (w.getenv "PRODUCT_CATALOG_SERVICE_ADDR") none,
       Effect.dial (w.getenv "CART_SERVICE_ADDR") none,
       Effect.dial (w.getenv "RECOMMENDATION_SERVICE_ADDR") none,
       Effect.dial (w.getenv "SHIPPING_SERVICE_ADDR") none,
       Effect.dial (w.getenv "CHECKOUT_SERVICE_ADDR") none,
       Effect.dial (w.getenv "AD_SERVICE_ADDR") none] ∧
    ((main w).trace.filter Effect.isDial).length = 7 ∧
    (main w).svc =
      { productCatalogSvcAddr := w.getenv "PRODUCT_CATALOG_SERVICE_ADDR"
        productCatalogSvcConn := (w.dialContext 1 (w.getenv "PRODUCT_CATALOG_SERVICE_ADDR")).conn
        currencySvcAddr := w.getenv "CURRENCY_SERVICE_ADDR"
        currencySvcConn := (w.dialContext 0 (w.getenv "CURRENCY_SERVICE_ADDR")).conn
        cartSvcAddr := w.getenv "CART_SERVICE_ADDR"
        cartSvcConn := (w.dialContext 2 (w.getenv "CART_SERVICE_ADDR")).conn
        recommendationSvcAddr := w.getenv "RECOMMENDATION_SERVICE_ADDR"
        recommendationSvcConn := (w.dialContext 3 (w.getenv "RECOMMENDATION_SERVICE_ADDR")).conn
        checkoutSvcAddr := w.getenv "CHECKOUT_SERVICE_ADDR"
        checkoutSvcConn := (w.dialContext 5 (w.getenv "CHECKOUT_SERVICE_ADDR")).conn
        shippingSvcAddr := w.getenv "SHIPPING_SERVICE_ADDR"
        shippingSvcConn := (w.dialContext 4 (w.getenv "SHIPPING_SERVICE_ADDR")).conn
        adSvcAddr := w.getenv "AD_SERVICE_ADDR"
        adSvcConn := (w.dialContext 6 (w.getenv "AD_SERVICE_ADDR")).conn } := by
  obtain ⟨hsvc, htr, _⟩ := main_started w henv hd
  have hf : (main w).trace.filter Effect.isDial =
      [Effect.dial (w.getenv "CURRENCY_SERVICE_ADDR") none,
       Effect.dial (w.getenv "PRODUCT_CATALOG_SERVICE_ADDR") none,
       Effect.dial (w.getenv "CART_SERVICE_ADDR") none,
       Effect.dial (w.getenv "RECOMMENDATION_SERVICE_ADDR") none,
       Effect.dial (w.getenv "SHIPPING_SERVICE_ADDR") none,
       Effect.dial (w.getenv "CHECKOUT_SERVICE_ADDR") none,
       Effect.dial (w.getenv "AD_SERVICE_ADDR") none] := by
    rw [htr]
    cases w.newApplication <;> simp [Effect.isDial]
  refine ⟨hf, ?_, hsvc⟩
  rw [hf]
  rfl

/-- C10 at a concrete run, in which the seven addresses differ. -/
theorem main_pairs_channels_witness :
    (∀ k ∈ requiredEnv, goodWorld.getenv k ≠ "") ∧ DialsSucceed goodWorld ∧
    ((main goodWorld).trace.filter Effect.isDial).length = 7 ∧
    (main goodWorld).svc.shippingSvcAddr = "SHIPPING_SERVICE_ADDR:443" ∧
    (main goodWorld).svc.shippingSvcConn =
      (goodWorld.dialContext 4 "SHIPPING_SERVICE_ADDR:443").conn ∧
    (main goodWorld).svc.checkoutSvcConn =
      (goodWorld.dialContext 5 "CHECKOUT_SERVICE_ADDR:443").conn := by
  have h := main_pairs_channels goodWorld (by decide) (by decide)
  refine ⟨by decide, by decide, h.2.1, ?_, ?_, ?_⟩
  · rw [h.2.2]; decide
  · rw [h.2.2]; decide
  · rw [h.2.2]; decide

end Frontend
